import Mathlib

/-!
Shallow embedding of the table-driven ARM64 single-instruction disassembler
(CDisasm). Every definition below is translated from the C sources:
`arm64_disasm.h`, `arm64_disasm.c` (table-driven entry point),
`arm64_decode_table.h`, and the table-driven category decoders for
branch, data-processing (immediate and register), load/store and FP/SIMD.
Decoders take the 32-bit word, the address and the current instruction
record and return a success flag together with the (possibly mutated)
record, exactly like the C `bool (*)(uint32_t, uint64_t, disasm_inst_t*)`
decoders, which may write fields even when they subsequently reject.
-/

namespace CDisasm

/-! ## Bit utilities (`BITS`, `BIT`, `SIGN_EXTEND` macros) -/

/-- `BITS(val, start, end) = (val >> start) & ((1 << (end-start+1)) - 1)`. -/
def BITS (val start stop : Nat) : Nat :=
  (val >>> start) &&& ((1 <<< (stop - start + 1)) - 1)

/-- `BIT(val, pos) = (val >> pos) & 1`. -/
def BIT (val pos : Nat) : Nat :=
  (val >>> pos) &&& 1

/-- `SIGN_EXTEND(val, bits)`: two's-complement sign extension of an
`n`-bit value to a signed 64-bit integer.  In the C sources the argument
is always a value below `2 ^ n`, where the shift pair
`((int64_t)v << (64-n)) >> (64-n)` computes exactly this. -/
def SIGN_EXTEND (val : Nat) (n : Nat) : Int :=
  let v := val % 2 ^ n
  if v < 2 ^ (n - 1) then (v : Int) else (v : Int) - (2 ^ n : Int)

/-! ## Enumerations from `arm64_disasm.h` -/

/-- `reg_type_t`. -/
inductive reg_type_t where
  | X | W | SP | XZR | WZR | V | B | H | S | D | Q
  deriving DecidableEq, Repr

/-- `inst_type_t`. -/
inductive inst_type_t where
  | UNKNOWN
  | LDR | LDRB | LDRH | LDRSW | LDRSB | LDRSH | STR | STRB | STRH | STP | LDP
  | MOV | MOVZ | MOVN | MOVK
  | ADD | SUB | ADDS | SUBS | ADR | ADRP
  | B | BL | BR | BLR | RET | CBZ | CBNZ | TBZ | TBNZ
  | AND | ORR | EOR | LSL | LSR | ASR | ROR
  | CMP | CMN | TST
  | MUL | MADD | MSUB | SDIV | UDIV | SMULL | UMULL
  | CSEL | CSINC | CSINV | CSNEG | CSET | CSETM | CINC | CINV | CNEG
  | CLZ | CLS | RBIT | REV | REV16 | REV32 | EXTR
  | LDXR | STXR | LDAXR | STLXR | LDAR | STLR
  | LDADD | LDCLR | LDEOR | LDSET | LDSMAX | LDSMIN | LDUMAX | LDUMIN
  | SWP | CAS
  | NOP | MRS | MSR | DMB | DSB | ISB | SVC | HVC | SMC
  | FMOV | FADD | FSUB | FMUL | FDIV | FABS | FNEG | FSQRT
  | FMADD | FMSUB | FNMADD | FNMSUB
  | FCMP | FCMPE | FCCMP | FCSEL | FCVT | FCVTZS | FCVTZU
  | SCVTF | UCVTF | FRINT | FMAX | FMIN
  deriving DecidableEq, Repr

/-- `addr_mode_t`. -/
inductive addr_mode_t where
  | NONE | IMM_UNSIGNED | IMM_SIGNED | PRE_INDEX | POST_INDEX
  | REG_OFFSET | REG_EXTEND | LITERAL
  deriving DecidableEq, Repr

/-- `extend_t` values as plain numbers: the C code computes values such
as `EXTEND_LSL + 2` that fall outside the declared enumerators, so the
field is modelled as a `Nat` (`EXTEND_UXTB = 0` … `EXTEND_LSL = 8`). -/
def EXTEND_UXTB : Nat := 0
def EXTEND_UXTH : Nat := 1
def EXTEND_UXTW : Nat := 2
def EXTEND_UXTX : Nat := 3
def EXTEND_SXTB : Nat := 4
def EXTEND_SXTH : Nat := 5
def EXTEND_SXTW : Nat := 6
def EXTEND_SXTX : Nat := 7
def EXTEND_LSL : Nat := 8

/-! ## The instruction record `disasm_inst_t` -/

/-- `disasm_inst_t` from `arm64_disasm.h` (table-driven version, with the
`ra` slot, condition code and acquire/release flags). -/
structure disasm_inst_t where
  raw : Nat
  address : Nat
  type : inst_type_t
  mnemonic : String
  rd : Nat
  rn : Nat
  rm : Nat
  rt2 : Nat
  ra : Nat
  rd_type : reg_type_t
  rn_type : reg_type_t
  rm_type : reg_type_t
  imm : Int
  has_imm : Bool
  addr_mode : addr_mode_t
  extend_type : Nat
  shift_amount : Nat
  cond : Nat
  is_64bit : Bool
  set_flags : Bool
  is_acquire : Bool
  is_release : Bool
  deriving DecidableEq, Repr

/-- `init_disasm_inst`: `memset(inst, 0, sizeof *inst)` (all-zero record:
numeric fields 0, booleans false, enums their first constructor), then
`raw`, `address`, `type = INST_TYPE_UNKNOWN`, `mnemonic = "unknown"`. -/
def init_disasm_inst (raw address : Nat) : disasm_inst_t :=
  { raw := raw
    address := address
    type := .UNKNOWN
    mnemonic := "unknown"
    rd := 0, rn := 0, rm := 0, rt2 := 0, ra := 0
    rd_type := .X, rn_type := .X, rm_type := .X
    imm := 0
    has_imm := false
    addr_mode := .NONE
    extend_type := 0
    shift_amount := 0
    cond := 0
    is_64bit := false
    set_flags := false
    is_acquire := false
    is_release := false }

/-! ## Decode-table engine (`arm64_decode_table.h` / `decode_with_table`) -/

/-- The decoder function type `decode_func_t`. -/
abbrev decode_func_t := Nat → Nat → disasm_inst_t → Bool × disasm_inst_t

/-- A `decode_entry_t` row: mask, expected value and decoder. -/
structure decode_entry_t where
  mask : Nat
  value : Nat
  decoder : decode_func_t

/-- `decode_with_table`: walk the rows in order; whenever
`(inst & mask) == value`, run the row's decoder on the current record;
on success stop, on rejection keep scanning with the record the decoder
may have mutated. -/
def decode_with_table : List decode_entry_t → Nat → Nat → disasm_inst_t →
    Bool × disasm_inst_t
  | [], _, _, r => (false, r)
  | e :: rest, inst, addr, r =>
    if inst &&& e.mask = e.value then
      match e.decoder inst addr r with
      | (true, r') => (true, r')
      | (false, r') => decode_with_table rest inst addr r'
    else
      decode_with_table rest inst addr r

/-- Canonical condition-code names, indexed by the architectural value. -/
def cond_names : List String :=
  ["eq", "ne", "cs", "cc", "mi", "pl", "vs", "vc",
   "hi", "ls", "ge", "lt", "gt", "le", "al", "nv"]

/-! ## Branch / system decoders (table-driven version) -/

/-- `decode_uncond_branch_imm`: B/BL, encoding `op|00101|imm26`. -/
def decode_uncond_branch_imm : decode_func_t := fun inst _addr r =>
  let op := BIT inst 31
  let imm26 := BITS inst 0 25
  let r := { r with imm := SIGN_EXTEND imm26 26 * 4, has_imm := true }
  if op = 0 then
    (true, { r with mnemonic := "b", type := .B })
  else
    (true, { r with mnemonic := "bl", type := .BL })

/-- `decode_cond_branch_imm`: B.cond, encoding `0101010|0|imm19|0|cond`.
The architectural condition is rendered into the mnemonic only; the
record's `cond` field is not written. -/
def decode_cond_branch_imm : decode_func_t := fun inst _addr r =>
  let imm19 := BITS inst 5 23
  let cond := BITS inst 0 3
  let r := { r with imm := SIGN_EXTEND imm19 19 * 4, has_imm := true,
                    type := .B }
  if cond < 16 then
    (true, { r with mnemonic := "b." ++ cond_names.getD cond "" })
  else
    (false, r)

/-- `decode_compare_branch`: CBZ/CBNZ, encoding `sf|011010|op|imm19|Rt`. -/
def decode_compare_branch : decode_func_t := fun inst _addr r =>
  let sf := BIT inst 31
  let op := BIT inst 24
  let imm19 := BITS inst 5 23
  let rt := BITS inst 0 4
  let r := { r with rd := rt,
                    rd_type := if sf = 1 then reg_type_t.X else reg_type_t.W,
                    imm := SIGN_EXTEND imm19 19 * 4,
                    has_imm := true,
                    is_64bit := sf == 1 }
  if op = 0 then
    (true, { r with mnemonic := "cbz", type := .CBZ })
  else
    (true, { r with mnemonic := "cbnz", type := .CBNZ })

/-- `decode_test_branch`: TBZ/TBNZ, encoding `b5|011011|op|b40|imm14|Rt`. -/
def decode_test_branch : decode_func_t := fun inst _addr r =>
  let b5 := BIT inst 31
  let op := BIT inst 24
  let b40 := BITS inst 19 23
  let imm14 := BITS inst 5 18
  let rt := BITS inst 0 4
  let bit_pos := (b5 <<< 5) ||| b40
  let r := { r with rd := rt,
                    rd_type := if bit_pos < 32 then reg_type_t.W else reg_type_t.X,
                    imm := SIGN_EXTEND imm14 14 * 4,
                    shift_amount := bit_pos,
                    has_imm := true,
                    is_64bit := decide (bit_pos ≥ 32) }
  if op = 0 then
    (true, { r with mnemonic := "tbz", type := .TBZ })
  else
    (true, { r with mnemonic := "tbnz", type := .TBNZ })

/-- `decode_uncond_branch_reg`: BR/BLR/RET/ERET/DRPS,
encoding `1101011|opc|op2|op3|Rn|op4`. -/
def decode_uncond_branch_reg : decode_func_t := fun inst _addr r =>
  let opc := BITS inst 21 24
  let op2 := BITS inst 16 20
  let op3 := BITS inst 10 15
  let rn := BITS inst 5 9
  let op4 := BITS inst 0 4
  let r := { r with rn := rn, rn_type := .X, has_imm := false,
                    is_64bit := true }
  if op2 ≠ 31 ∨ op4 ≠ 0 then
    (false, r)
  else if opc = 0 then
    if op3 = 0 then (true, { r with mnemonic := "br", type := .BR }) else (false, r)
  else if opc = 1 then
    if op3 = 0 then (true, { r with mnemonic := "blr", type := .BLR }) else (false, r)
  else if opc = 2 then
    if op3 = 0 then (true, { r with mnemonic := "ret", type := .RET }) else (false, r)
  else if opc = 4 then
    if op3 = 0 ∧ rn = 31 then (true, { r with mnemonic := "eret", type := .RET }) else (false, r)
  else if opc = 5 then
    if op3 = 0 ∧ rn = 31 then (true, { r with mnemonic := "drps", type := .RET }) else (false, r)
  else
    (false, r)

/-- `decode_system`: NOP/hints and MRS,
encoding `1101010100|L|op0|op1|CRn|CRm|op2|Rt`. -/
def decode_system : decode_func_t := fun inst _addr r =>
  let op0 := BITS inst 19 20
  let op1 := BITS inst 16 18
  let crn := BITS inst 12 15
  let crm := BITS inst 8 11
  let op2 := BITS inst 5 7
  let rt := BITS inst 0 4
  let L := BIT inst 21
  let hint_names : List String := ["nop", "yield", "wfe", "wfi", "sev", "sevl"]
  if op0 = 0 ∧ op1 = 3 ∧ crn = 2 ∧ rt = 31 ∧ crm = 0 ∧ op2 < 6 then
    (true, { r with mnemonic := hint_names.getD op2 "", type := .NOP })
  else if L = 1 ∧ rt ≠ 31 then
    (true, { r with rd := rt, rd_type := .X, is_64bit := true,
                    has_imm := false, mnemonic := "mrs", type := .MRS })
  else
    (false, r)

/-- `branch_decode_table`. -/
def branch_decode_table : List decode_entry_t :=
  [ ⟨0x7C000000, 0x14000000, decode_uncond_branch_imm⟩,
    ⟨0x7E000000, 0x34000000, decode_compare_branch⟩,
    ⟨0x7E000000, 0x36000000, decode_test_branch⟩,
    ⟨0xFF000010, 0x54000000, decode_cond_branch_imm⟩,
    ⟨0xFE000000, 0xD6000000, decode_uncond_branch_reg⟩,
    ⟨0xFFC00000, 0xD5000000, decode_system⟩ ]

/-- `decode_branch`. -/
def decode_branch : decode_func_t := fun inst addr r =>
  decode_with_table branch_decode_table inst addr r

/-! ## Data-processing (immediate) decoders (table-driven version) -/

/-- `decode_pc_rel_addr`: ADR/ADRP, encoding `op|immlo|10000|immhi|Rd`. -/
def decode_pc_rel_addr : decode_func_t := fun inst _addr r =>
  let op := BIT inst 31
  let immlo := BITS inst 29 30
  let immhi := BITS inst 5 23
  let rd := BITS inst 0 4
  let r := { r with rd := rd, rd_type := .X, has_imm := true, is_64bit := true }
  let imm21 := (immhi <<< 2) ||| immlo
  if op = 0 then
    (true, { r with imm := SIGN_EXTEND imm21 21, mnemonic := "adr", type := .ADR })
  else
    (true, { r with imm := SIGN_EXTEND imm21 21 * 4096, mnemonic := "adrp", type := .ADRP })

/-- `decode_add_sub_imm`: ADD/SUB immediate with the CMP/CMN/MOV-SP
aliases and the SP register-class rules,
encoding `sf|op|S|100010|shift|imm12|Rn|Rd`. -/
def decode_add_sub_imm : decode_func_t := fun inst _addr r =>
  let sf := BIT inst 31
  let op := BIT inst 30
  let S := BIT inst 29
  let shift := BITS inst 22 23
  let imm12 := BITS inst 10 21
  let rn := BITS inst 5 9
  let rd := BITS inst 0 4
  if shift > 1 then (false, r)
  else
    let gpr : reg_type_t := if sf = 1 then .X else .W
    let r := { r with rd := rd, rn := rn, imm := (imm12 : Int),
                      shift_amount := if shift = 1 then 12 else 0,
                      has_imm := true, is_64bit := sf == 1, set_flags := S == 1,
                      rd_type := gpr, rn_type := gpr }
    let r :=
      if op = 0 then
        let r := if S = 1 then { r with mnemonic := "adds", type := .ADDS }
                 else { r with mnemonic := "add", type := .ADD }
        if S = 0 ∧ imm12 = 0 ∧ shift = 0 then
          { r with mnemonic := "mov", type := .MOV, has_imm := false,
                   rm := rn, rm_type := r.rn_type }
        else r
      else
        if S = 1 then { r with mnemonic := "subs", type := .SUBS }
        else { r with mnemonic := "sub", type := .SUB }
    let r :=
      if S = 1 ∧ rd = 31 then
        let r := if op = 1 then { r with mnemonic := "cmp", type := .CMP }
                 else { r with mnemonic := "cmn", type := .CMN }
        { r with rd_type := gpr }
      else r
    let r :=
      if S = 0 then
        let r := if rn = 31 then { r with rn_type := .SP } else r
        if rd = 31 then { r with rd_type := .SP } else r
      else r
    (true, r)

/-- `decode_logical_imm`: AND/ORR/EOR/ANDS immediate with MOV/TST
aliases, encoding `sf|opc|100100|N|immr|imms|Rn|Rd`. -/
def decode_logical_imm : decode_func_t := fun inst _addr r =>
  let sf := BIT inst 31
  let opc := BITS inst 29 30
  let immr := BITS inst 16 21
  let imms := BITS inst 10 15
  let rn := BITS inst 5 9
  let rd := BITS inst 0 4
  let gpr : reg_type_t := if sf = 1 then .X else .W
  let r := { r with imm := ((immr <<< 6) ||| imms : Nat), rd := rd, rn := rn,
                    has_imm := true, is_64bit := sf == 1,
                    rd_type := gpr, rn_type := gpr }
  if opc = 0 then
    (true, { r with mnemonic := "and", type := .AND })
  else if opc = 1 then
    let r := { r with mnemonic := "orr", type := .ORR }
    if rn = 31 then (true, { r with mnemonic := "mov", type := .MOV })
    else (true, r)
  else if opc = 2 then
    (true, { r with mnemonic := "eor", type := .EOR })
  else if opc = 3 then
    let r := { r with mnemonic := "ands", type := .AND, set_flags := true }
    if rd = 31 then (true, { r with mnemonic := "tst" })
    else (true, r)
  else
    (false, r)

/-- `decode_move_wide_imm`: MOVZ/MOVN/MOVK,
encoding `sf|opc|100101|hw|imm16|Rd`; rejects `sf=0 ∧ hw≥2` and `opc=1`. -/
def decode_move_wide_imm : decode_func_t := fun inst _addr r =>
  let sf := BIT inst 31
  let opc := BITS inst 29 30
  let hw := BITS inst 21 22
  let imm16 := BITS inst 5 20
  let rd := BITS inst 0 4
  if sf = 0 ∧ hw ≥ 2 then (false, r)
  else
    let r := { r with rd := rd, imm := (imm16 : Int), shift_amount := hw * 16,
                      has_imm := true, is_64bit := sf == 1,
                      rd_type := if sf = 1 then reg_type_t.X else reg_type_t.W }
    if opc = 0 then (true, { r with mnemonic := "movn", type := .MOVN })
    else if opc = 2 then (true, { r with mnemonic := "movz", type := .MOVZ })
    else if opc = 3 then (true, { r with mnemonic := "movk", type := .MOVK })
    else (false, r)

/-- `decode_bitfield`: SBFM/BFM/UBFM with the ASR/LSR/LSL aliases,
encoding `sf|opc|100110|N|immr|imms|Rn|Rd`; requires `N == sf`. -/
def decode_bitfield : decode_func_t := fun inst _addr r =>
  let sf := BIT inst 31
  let opc := BITS inst 29 30
  let N := BIT inst 22
  let immr := BITS inst 16 21
  let imms := BITS inst 10 15
  let rn := BITS inst 5 9
  let rd := BITS inst 0 4
  if N ≠ sf then (false, r)
  else
    let gpr : reg_type_t := if sf = 1 then .X else .W
    let r := { r with rd := rd, rn := rn, has_imm := true, is_64bit := sf == 1,
                      rd_type := gpr, rn_type := gpr,
                      imm := ((immr <<< 6) ||| imms : Nat),
                      shift_amount := immr }
    if opc = 0 then
      let r := { r with mnemonic := "sbfm", type := .LSL }
      if immr ≠ 0 ∧ imms = (if sf = 1 then 63 else 31) then
        (true, { r with mnemonic := "asr", type := .ASR })
      else (true, r)
    else if opc = 1 then
      (true, { r with mnemonic := "bfm", type := .LSL })
    else if opc = 2 then
      let r := { r with mnemonic := "ubfm", type := .LSL }
      let r := if imms = (if sf = 1 then 63 else 31) then
                 { r with mnemonic := "lsr", type := .LSR }
               else r
      let r := if immr = 0 ∧ imms < (if sf = 1 then 63 else 31) then
                 { r with mnemonic := "lsl", type := .LSL }
               else r
      (true, r)
    else
      (false, r)

/-- `decode_extract`: EXTR with the ROR alias,
encoding `sf|00|100111|N|0|Rm|imms|Rn|Rd`. -/
def decode_extract : decode_func_t := fun inst _addr r =>
  let sf := BIT inst 31
  let N := BIT inst 22
  let rm := BITS inst 16 20
  let imms := BITS inst 10 15
  let rn := BITS inst 5 9
  let rd := BITS inst 0 4
  if sf ≠ N then (false, r)
  else if sf = 0 ∧ imms ≥ 32 then (false, r)
  else
    let gpr : reg_type_t := if sf = 1 then .X else .W
    let r := { r with rd := rd, rn := rn, rm := rm, imm := (imms : Int),
                      has_imm := true, is_64bit := sf == 1,
                      rd_type := gpr, rn_type := gpr, rm_type := gpr }
    if rn = rm then (true, { r with mnemonic := "ror", type := .ROR })
    else (true, { r with mnemonic := "extr", type := .EXTR })

/-- `data_proc_imm_decode_table`. -/
def data_proc_imm_decode_table : List decode_entry_t :=
  [ ⟨0x1F000000, 0x10000000, decode_pc_rel_addr⟩,
    ⟨0x1F000000, 0x11000000, decode_add_sub_imm⟩,
    ⟨0x1F800000, 0x12000000, decode_logical_imm⟩,
    ⟨0x1F800000, 0x12800000, decode_move_wide_imm⟩,
    ⟨0x1F800000, 0x13000000, decode_bitfield⟩,
    ⟨0x7FA00000, 0x13800000, decode_extract⟩ ]

/-- `decode_data_proc_imm`. -/
def decode_data_proc_imm : decode_func_t := fun inst addr r =>
  decode_with_table data_proc_imm_decode_table inst addr r

/-! ## Data-processing (register) decoders (table-driven version) -/

/-- `decode_logical_shifted_reg`: AND/BIC/ORR/ORN/EOR/EON/ANDS/BICS with
the MOV/MVN/TST aliases, encoding `sf|opc|01010|shift|N|Rm|imm6|Rn|Rd`. -/
def decode_logical_shifted_reg : decode_func_t := fun inst _addr r =>
  let sf := BIT inst 31
  let opc := BITS inst 29 30
  let shift := BITS inst 22 23
  let N := BIT inst 21
  let rm := BITS inst 16 20
  let imm6 := BITS inst 10 15
  let rn := BITS inst 5 9
  let rd := BITS inst 0 4
  let gpr : reg_type_t := if sf = 1 then .X else .W
  let r := { r with rd := rd, rn := rn, rm := rm, shift_amount := imm6,
                    has_imm := false, is_64bit := sf == 1,
                    rd_type := gpr, rn_type := gpr, rm_type := gpr,
                    extend_type := EXTEND_LSL + shift }
  let op_code := (opc <<< 1) ||| N
  if op_code = 0 then
    (true, { r with mnemonic := "and", type := .AND })
  else if op_code = 1 then
    (true, { r with mnemonic := "bic", type := .AND })
  else if op_code = 2 then
    let r := { r with mnemonic := "orr", type := .ORR }
    if rn = 31 ∧ imm6 = 0 ∧ shift = 0 then
      (true, { r with mnemonic := "mov", type := .MOV })
    else (true, r)
  else if op_code = 3 then
    let r := { r with mnemonic := "orn", type := .ORR }
    if rn = 31 then (true, { r with mnemonic := "mvn" })
    else (true, r)
  else if op_code = 4 then
    (true, { r with mnemonic := "eor", type := .EOR })
  else if op_code = 5 then
    (true, { r with mnemonic := "eon", type := .EOR })
  else if op_code = 6 then
    let r := { r with mnemonic := "ands", type := .AND, set_flags := true }
    if rd = 31 then (true, { r with mnemonic := "tst" })
    else (true, r)
  else if op_code = 7 then
    (true, { r with mnemonic := "bics", type := .AND, set_flags := true })
  else
    (false, r)

/-- `decode_add_sub_shifted_reg`: ADD/SUB shifted register with the
CMP/CMN/NEG aliases and SP rules,
encoding `sf|op|S|01011|shift|0|Rm|imm6|Rn|Rd`; `shift=3` rejects. -/
def decode_add_sub_shifted_reg : decode_func_t := fun inst _addr r =>
  let sf := BIT inst 31
  let op := BIT inst 30
  let S := BIT inst 29
  let shift := BITS inst 22 23
  let rm := BITS inst 16 20
  let imm6 := BITS inst 10 15
  let rn := BITS inst 5 9
  let rd := BITS inst 0 4
  let gpr : reg_type_t := if sf = 1 then .X else .W
  let r := { r with rd := rd, rn := rn, rm := rm, shift_amount := imm6,
                    has_imm := false, is_64bit := sf == 1, set_flags := S == 1,
                    rd_type := gpr, rn_type := gpr, rm_type := gpr }
  if shift > 2 then (false, r)
  else
    let r := { r with extend_type := EXTEND_LSL + shift }
    let r :=
      if op = 0 then
        if S = 1 then { r with mnemonic := "adds", type := .ADDS }
        else { r with mnemonic := "add", type := .ADD }
      else
        if S = 1 then { r with mnemonic := "subs", type := .SUBS }
        else { r with mnemonic := "sub", type := .SUB }
    let r :=
      if S = 1 ∧ rd = 31 then
        if op = 1 then { r with mnemonic := "cmp", type := .CMP, rd_type := gpr }
        else { r with mnemonic := "cmn", type := .CMN, rd_type := gpr }
      else r
    let r :=
      if op = 1 ∧ rn = 31 ∧ S = 0 then
        { r with mnemonic := "neg", rn_type := gpr }
      else r
    let r :=
      if S = 0 ∧ ¬(op = 1 ∧ rn = 31 ∧ rd ≠ 31) then
        let r := if rn = 31 then { r with rn_type := .SP } else r
        if rd = 31 then { r with rd_type := .SP } else r
      else r
    (true, r)

/-- `decode_cond_select`: CSEL/CSINC/CSINV/CSNEG with the
CSET/CSETM/CINC/CINV/CNEG aliases (which rewrite `cond := cond XOR 1`),
encoding `sf|op|S|11010100|Rm|cond|op2|Rn|Rd`; requires `S=0, op2∈{0,1}`. -/
def decode_cond_select : decode_func_t := fun inst _addr r =>
  let sf := BIT inst 31
  let op := BIT inst 30
  let S := BIT inst 29
  let rm := BITS inst 16 20
  let cond := BITS inst 12 15
  let op2 := BITS inst 10 11
  let rn := BITS inst 5 9
  let rd := BITS inst 0 4
  if S ≠ 0 then (false, r)
  else if op2 > 1 then (false, r)
  else
    let gpr : reg_type_t := if sf = 1 then .X else .W
    let r := { r with rd := rd, rn := rn, rm := rm, cond := cond,
                      has_imm := false, is_64bit := sf == 1,
                      rd_type := gpr, rn_type := gpr, rm_type := gpr }
    let opcode := (op <<< 1) ||| op2
    if opcode = 0 then
      (true, { r with mnemonic := "csel", type := .CSEL })
    else if opcode = 1 then
      if rm = 31 ∧ rn = 31 then
        (true, { r with mnemonic := "cset", type := .CSET, cond := cond ^^^ 1 })
      else if rm = rn ∧ cond ≠ 14 ∧ cond ≠ 15 then
        (true, { r with mnemonic := "cinc", type := .CINC, cond := cond ^^^ 1 })
      else
        (true, { r with mnemonic := "csinc", type := .CSINC })
    else if opcode = 2 then
      if rm = 31 ∧ rn = 31 then
        (true, { r with mnemonic := "csetm", type := .CSETM, cond := cond ^^^ 1 })
      else if rm = rn ∧ cond ≠ 14 ∧ cond ≠ 15 then
        (true, { r with mnemonic := "cinv", type := .CINV, cond := cond ^^^ 1 })
      else
        (true, { r with mnemonic := "csinv", type := .CSINV })
    else if opcode = 3 then
      if rm = rn ∧ cond ≠ 14 ∧ cond ≠ 15 then
        (true, { r with mnemonic := "cneg", type := .CNEG, cond := cond ^^^ 1 })
      else
        (true, { r with mnemonic := "csneg", type := .CSNEG })
    else
      (false, r)

/-- `decode_data_proc_1src`: RBIT/REV16/REV/REV32/CLZ/CLS,
encoding `sf|1|S|11010110|opcode2|opcode|Rn|Rd`; requires `S=0, opcode2=0`. -/
def decode_data_proc_1src : decode_func_t := fun inst _addr r =>
  let sf := BIT inst 31
  let S := BIT inst 29
  let opcode2 := BITS inst 16 20
  let opcode := BITS inst 10 15
  let rn := BITS inst 5 9
  let rd := BITS inst 0 4
  if S ≠ 0 ∨ opcode2 ≠ 0 then (false, r)
  else
    let gpr : reg_type_t := if sf = 1 then .X else .W
    let r := { r with rd := rd, rn := rn, has_imm := false, is_64bit := sf == 1,
                      rd_type := gpr, rn_type := gpr }
    if opcode = 0 then (true, { r with mnemonic := "rbit", type := .RBIT })
    else if opcode = 1 then (true, { r with mnemonic := "rev16", type := .REV16 })
    else if opcode = 2 then
      if sf = 1 then (true, { r with mnemonic := "rev32", type := .REV32 })
      else (true, { r with mnemonic := "rev", type := .REV })
    else if opcode = 3 then
      if sf ≠ 1 then (false, r)
      else (true, { r with mnemonic := "rev", type := .REV })
    else if opcode = 4 then (true, { r with mnemonic := "clz", type := .CLZ })
    else if opcode = 5 then (true, { r with mnemonic := "cls", type := .CLS })
    else (false, r)

/-- `decode_data_proc_2src`: UDIV/SDIV/LSLV/LSRV/ASRV/RORV,
encoding `sf|0|S|11010110|Rm|opcode|Rn|Rd`; requires `S=0`. -/
def decode_data_proc_2src : decode_func_t := fun inst _addr r =>
  let sf := BIT inst 31
  let S := BIT inst 29
  let rm := BITS inst 16 20
  let opcode := BITS inst 10 15
  let rn := BITS inst 5 9
  let rd := BITS inst 0 4
  if S = 1 then (false, r)
  else
    let gpr : reg_type_t := if sf = 1 then .X else .W
    let r := { r with rd := rd, rn := rn, rm := rm, has_imm := false,
                      is_64bit := sf == 1,
                      rd_type := gpr, rn_type := gpr, rm_type := gpr }
    if opcode = 2 then (true, { r with mnemonic := "udiv", type := .UDIV })
    else if opcode = 3 then (true, { r with mnemonic := "sdiv", type := .SDIV })
    else if opcode = 8 then (true, { r with mnemonic := "lsl", type := .LSL })
    else if opcode = 9 then (true, { r with mnemonic := "lsr", type := .LSR })
    else if opcode = 10 then (true, { r with mnemonic := "asr", type := .ASR })
    else if opcode = 11 then (true, { r with mnemonic := "ror", type := .ROR })
    else (false, r)

/-- `decode_data_proc_3src`: MADD/MSUB with the MUL/MNEG aliases,
encoding `sf|op54|11011|op31|Rm|o0|Ra|Rn|Rd`; requires `op54=0`. -/
def decode_data_proc_3src : decode_func_t := fun inst _addr r =>
  let sf := BIT inst 31
  let op54 := BITS inst 29 30
  let op31 := BITS inst 21 23
  let rm := BITS inst 16 20
  let o0 := BIT inst 15
  let ra := BITS inst 10 14
  let rn := BITS inst 5 9
  let rd := BITS inst 0 4
  if op54 ≠ 0 then (false, r)
  else
    let gpr : reg_type_t := if sf = 1 then .X else .W
    let r := { r with rd := rd, rn := rn, rm := rm, ra := ra, has_imm := false,
                      is_64bit := sf == 1,
                      rd_type := gpr, rn_type := gpr, rm_type := gpr }
    let opcode := (op31 <<< 1) ||| o0
    if opcode = 0 then
      if ra = 31 then (true, { r with mnemonic := "mul", type := .MUL })
      else (true, { r with mnemonic := "madd", type := .MADD })
    else if opcode = 1 then
      if ra = 31 then (true, { r with mnemonic := "mneg", type := .MSUB })
      else (true, { r with mnemonic := "msub", type := .MSUB })
    else
      (false, r)

/-- `data_proc_reg_decode_table`. -/
def data_proc_reg_decode_table : List decode_entry_t :=
  [ ⟨0x1F000000, 0x0A000000, decode_logical_shifted_reg⟩,
    ⟨0x1F200000, 0x0B000000, decode_add_sub_shifted_reg⟩,
    ⟨0x1FE00000, 0x1A800000, decode_cond_select⟩,
    ⟨0x5FE00000, 0x5AC00000, decode_data_proc_1src⟩,
    ⟨0x5FE00000, 0x1AC00000, decode_data_proc_2src⟩,
    ⟨0x1F000000, 0x1B000000, decode_data_proc_3src⟩ ]

/-- `decode_data_proc_reg`. -/
def decode_data_proc_reg : decode_func_t := fun inst addr r =>
  decode_with_table data_proc_reg_decode_table inst addr r

/-! ## Load/store decoders (table-driven version) -/

/-- One `ls_info_t` row of the GPR load/store lookup table. -/
structure ls_info_t where
  size_opc : Nat
  mnemonic : String
  type : inst_type_t
  reg_type : reg_type_t
  is_64bit : Bool
  deriving DecidableEq, Repr

/-- `gpr_ls_info`: the fixed `(size<<2)|opc` table for GPR loads/stores. -/
def gpr_ls_info : List ls_info_t :=
  [ ⟨0x00, "strb",  .STRB,  .W, false⟩,
    ⟨0x01, "ldrb",  .LDRB,  .W, false⟩,
    ⟨0x02, "ldrsb", .LDRSB, .X, true⟩,
    ⟨0x03, "ldrsb", .LDRSB, .W, false⟩,
    ⟨0x04, "strh",  .STRH,  .W, false⟩,
    ⟨0x05, "ldrh",  .LDRH,  .W, false⟩,
    ⟨0x06, "ldrsh", .LDRSH, .X, true⟩,
    ⟨0x07, "ldrsh", .LDRSH, .W, false⟩,
    ⟨0x08, "str",   .STR,   .W, false⟩,
    ⟨0x09, "ldr",   .LDR,   .W, false⟩,
    ⟨0x0A, "ldrsw", .LDRSW, .X, true⟩,
    ⟨0x0C, "str",   .STR,   .X, true⟩,
    ⟨0x0D, "ldr",   .LDR,   .X, true⟩ ]

/-- `find_gpr_ls_info`: linear scan of `gpr_ls_info`. -/
def find_gpr_ls_info (size_opc : Nat) : Option ls_info_t :=
  gpr_ls_info.find? (fun i => i.size_opc = size_opc)

/-- The SIMD register class selected by a 2-bit `size` field
(`{B, H, S, D}` indexed by `size`). -/
def simd_types (size : Nat) : reg_type_t :=
  if size = 0 then .B else if size = 1 then .H else if size = 2 then .S else .D

/-- `decode_ls_unsigned_imm`: load/store with scaled unsigned offset,
encoding `size|111|V|01|imm12|Rn|Rt`. -/
def decode_ls_unsigned_imm : decode_func_t := fun inst _addr r =>
  let size := BITS inst 30 31
  let V := BIT inst 26
  let opc := BITS inst 22 23
  let imm12 := BITS inst 10 21
  let rn := BITS inst 5 9
  let rt := BITS inst 0 4
  let r := { r with rn := rn, rd := rt,
                    rn_type := if rn = 31 then reg_type_t.SP else reg_type_t.X,
                    addr_mode := .IMM_UNSIGNED, has_imm := true }
  if V = 0 then
    match find_gpr_ls_info ((size <<< 2) ||| opc) with
    | none => (false, r)
    | some info =>
      (true, { r with imm := ((imm12 <<< size : Nat) : Int),
                      mnemonic := info.mnemonic, type := info.type,
                      rd_type := info.reg_type, is_64bit := info.is_64bit })
  else
    let r := { r with imm := ((imm12 <<< size : Nat) : Int) }
    if size > 3 then (false, r)
    else
      let r := { r with rd_type := simd_types size }
      if opc = 0 then (true, { r with mnemonic := "str", type := .STR })
      else if opc = 1 then (true, { r with mnemonic := "ldr", type := .LDR })
      else (false, r)

/-- `decode_ls_reg_offset`: load/store with register offset / extended
register, encoding `size|111|V|00|1|Rm|option|S|10|Rn|Rt`. -/
def decode_ls_reg_offset : decode_func_t := fun inst _addr r =>
  let size := BITS inst 30 31
  let V := BIT inst 26
  let opc := BITS inst 22 23
  let rm := BITS inst 16 20
  let option := BITS inst 13 15
  let S := BIT inst 12
  let rn := BITS inst 5 9
  let rt := BITS inst 0 4
  let r := { r with rn := rn, rd := rt, rm := rm,
                    rn_type := if rn = 31 then reg_type_t.SP else reg_type_t.X,
                    has_imm := false,
                    extend_type := option,
                    shift_amount := if S = 1 then size else 0,
                    rm_type := if option = EXTEND_UXTX ∨ option = EXTEND_SXTX
                               then reg_type_t.X else reg_type_t.W,
                    addr_mode := if option = EXTEND_LSL ∨ option = EXTEND_UXTX
                                 then addr_mode_t.REG_OFFSET
                                 else addr_mode_t.REG_EXTEND }
  if V = 0 then
    match find_gpr_ls_info ((size <<< 2) ||| opc) with
    | none => (false, r)
    | some info =>
      (true, { r with mnemonic := info.mnemonic, type := info.type,
                      rd_type := info.reg_type, is_64bit := info.is_64bit })
  else
    if size > 3 then (false, r)
    else
      let r := { r with rd_type := simd_types size }
      if opc = 0 then (true, { r with mnemonic := "str", type := .STR })
      else if opc = 1 then (true, { r with mnemonic := "ldr", type := .LDR })
      else (false, r)

/-- One row of the unscaled/indexed load/store name table. -/
structure unscaled_info_t where
  size_opc : Nat
  base_name : String
  unscaled_name : String
  type : inst_type_t
  reg_type : reg_type_t
  is_64bit : Bool
  deriving DecidableEq, Repr

/-- The `unscaled_info` table of `decode_ls_unscaled_imm`. -/
def unscaled_info : List unscaled_info_t :=
  [ ⟨0x00, "strb",  "sturb",  .STRB,  .W, false⟩,
    ⟨0x01, "ldrb",  "ldurb",  .LDRB,  .W, false⟩,
    ⟨0x02, "ldrsb", "ldursb", .LDRSB, .X, true⟩,
    ⟨0x03, "ldrsb", "ldursb", .LDRSB, .W, false⟩,
    ⟨0x04, "strh",  "sturh",  .STRH,  .W, false⟩,
    ⟨0x05, "ldrh",  "ldurh",  .LDRH,  .W, false⟩,
    ⟨0x06, "ldrsh", "ldursh", .LDRSH, .X, true⟩,
    ⟨0x07, "ldrsh", "ldursh", .LDRSH, .W, false⟩,
    ⟨0x08, "str",   "stur",   .STR,   .W, false⟩,
    ⟨0x09, "ldr",   "ldur",   .LDR,   .W, false⟩,
    ⟨0x0A, "ldrsw", "ldursw", .LDRSW, .X, true⟩,
    ⟨0x0C, "str",   "stur",   .STR,   .X, true⟩,
    ⟨0x0D, "ldr",   "ldur",   .LDR,   .X, true⟩ ]

/-- `decode_ls_unscaled_imm`: unscaled signed offset (STUR/LDUR family)
and pre/post-indexed forms, encoding `size|111|V|00|0|imm9|idx|Rn|Rt`;
`idx=2` rejects. -/
def decode_ls_unscaled_imm : decode_func_t := fun inst _addr r =>
  let size := BITS inst 30 31
  let V := BIT inst 26
  let opc := BITS inst 22 23
  let imm9 := BITS inst 12 20
  let idx := BITS inst 10 11
  let rn := BITS inst 5 9
  let rt := BITS inst 0 4
  let r := { r with imm := SIGN_EXTEND imm9 9, rn := rn, rd := rt,
                    rn_type := if rn = 31 then reg_type_t.SP else reg_type_t.X,
                    has_imm := true }
  if idx = 2 then (false, r)
  else
    let r := { r with addr_mode :=
                 if idx = 0 then addr_mode_t.IMM_SIGNED
                 else if idx = 1 then addr_mode_t.POST_INDEX
                 else addr_mode_t.PRE_INDEX }
    if V = 0 then
      match unscaled_info.find? (fun i => i.size_opc = ((size <<< 2) ||| opc)) with
      | none => (false, r)
      | some info =>
        (true, { r with mnemonic := if idx = 0 then info.unscaled_name else info.base_name,
                        type := info.type, rd_type := info.reg_type,
                        is_64bit := info.is_64bit })
    else
      if size > 3 then (false, r)
      else
        let r := { r with rd_type := simd_types size }
        if opc = 0 then
          (true, { r with mnemonic := if idx = 0 then "stur" else "str", type := .STR })
        else if opc = 1 then
          (true, { r with mnemonic := if idx = 0 then "ldur" else "ldr", type := .LDR })
        else (false, r)

/-- `decode_ls_pair`: LDP/STP/LDPSW and the SIMD pair forms,
encoding `opc|101|V|idx|L|imm7|Rt2|Rn|Rt`; `idx=0` rejects. -/
def decode_ls_pair : decode_func_t := fun inst _addr r =>
  let opc := BITS inst 30 31
  let V := BIT inst 26
  let idx := BITS inst 23 24
  let L := BIT inst 22
  let imm7 := BITS inst 15 21
  let rt2 := BITS inst 10 14
  let rn := BITS inst 5 9
  let rt := BITS inst 0 4
  let r := { r with rd := rt, rt2 := rt2, rn := rn,
                    rn_type := if rn = 31 then reg_type_t.SP else reg_type_t.X,
                    has_imm := true }
  if idx = 0 then (false, r)
  else
    let r := { r with addr_mode :=
                 if idx = 1 then addr_mode_t.POST_INDEX
                 else if idx = 2 then addr_mode_t.IMM_SIGNED
                 else addr_mode_t.PRE_INDEX }
    if V = 0 then
      if opc = 0 then
        (true, { r with imm := SIGN_EXTEND imm7 7 * 4, rd_type := .W,
                        mnemonic := if L = 1 then "ldp" else "stp",
                        type := if L = 1 then inst_type_t.LDP else inst_type_t.STP })
      else if opc = 1 then
        if L ≠ 1 then (false, r)
        else
          (true, { r with imm := SIGN_EXTEND imm7 7 * 4, rd_type := .X,
                          is_64bit := true, mnemonic := "ldpsw", type := .LDP })
      else if opc = 2 then
        (true, { r with imm := SIGN_EXTEND imm7 7 * 8, rd_type := .X,
                        is_64bit := true,
                        mnemonic := if L = 1 then "ldp" else "stp",
                        type := if L = 1 then inst_type_t.LDP else inst_type_t.STP })
      else
        (false, r)
    else
      if opc > 2 then (false, r)
      else
        let shift := if opc = 0 then 2 else if opc = 1 then 3 else 4
        let ty : reg_type_t := if opc = 0 then .S else if opc = 1 then .D else .Q
        (true, { r with imm := SIGN_EXTEND imm7 7 * (2 ^ shift : Nat),
                        rd_type := ty,
                        mnemonic := if L = 1 then "ldp" else "stp",
                        type := if L = 1 then inst_type_t.LDP else inst_type_t.STP })

/-- `decode_load_literal`: PC-relative literal loads,
encoding `opc|011|V|00|imm19|Rt`.  Note that the mnemonic `"ldr"` and
the kind `LDR` are written *before* the `opc > 2` validity check. -/
def decode_load_literal : decode_func_t := fun inst _addr r =>
  let opc := BITS inst 30 31
  let V := BIT inst 26
  let imm19 := BITS inst 5 23
  let rt := BITS inst 0 4
  let r := { r with imm := SIGN_EXTEND imm19 19 * 4, rd := rt,
                    has_imm := true, addr_mode := .LITERAL,
                    mnemonic := "ldr", type := .LDR }
  if V = 0 then
    if opc > 2 then (false, r)
    else
      let ty : reg_type_t := if opc = 0 then .W else .X
      let r := { r with rd_type := ty, is_64bit := decide (opc ≠ 0),
                        mnemonic := if opc = 2 then "ldrsw" else "ldr" }
      if opc = 2 then (true, { r with type := .LDRSW })
      else (true, r)
  else
    if opc > 2 then (false, r)
    else
      (true, { r with rd_type := if opc = 0 then reg_type_t.S
                                 else if opc = 1 then reg_type_t.D
                                 else reg_type_t.Q })

/-- `decode_load_store_exclusive`: LDXR/STXR/LDAXR/STLXR, the pair forms
LDXP/STXP/LDAXP/STLXP and LDAR/STLR/LDLAR/STLLR, with the `b`/`h` size
suffixes; encoding `size|001000|o2|L|o1|Rs|o0|Rt2|Rn|Rt`.  This decoder
always succeeds on a word matching its row. -/
def decode_load_store_exclusive : decode_func_t := fun inst _addr r =>
  let size := BITS inst 30 31
  let o2 := BIT inst 23
  let L := BIT inst 22
  let o1 := BIT inst 21
  let rs := BITS inst 16 20
  let o0 := BIT inst 15
  let rt2 := BITS inst 10 14
  let rn := BITS inst 5 9
  let rt := BITS inst 0 4
  let r := { r with rd := rt, rn := rn, rm := rs, rt2 := rt2,
                    rn_type := if rn = 31 then reg_type_t.SP else reg_type_t.X,
                    has_imm := false, addr_mode := .IMM_UNSIGNED,
                    is_64bit := size == 3,
                    rd_type := if size = 3 then reg_type_t.X else reg_type_t.W,
                    rm_type := .W,
                    is_acquire := o0 == 1, is_release := o1 == 1 }
  let r :=
    if o2 = 0 then
      if L = 1 then
        if o1 = 0 ∧ o0 = 0 then { r with mnemonic := "ldxr", type := .LDXR }
        else if o1 = 0 ∧ o0 = 1 then { r with mnemonic := "ldaxr", type := .LDAXR }
        else if o1 = 1 ∧ o0 = 0 then { r with mnemonic := "ldxp", type := .LDXR }
        else { r with mnemonic := "ldaxp", type := .LDAXR }
      else
        if o1 = 0 ∧ o0 = 0 then { r with mnemonic := "stxr", type := .STXR }
        else if o1 = 0 ∧ o0 = 1 then { r with mnemonic := "stlxr", type := .STLXR }
        else if o1 = 1 ∧ o0 = 0 then { r with mnemonic := "stxp", type := .STXR }
        else { r with mnemonic := "stlxp", type := .STLXR }
    else
      if L = 1 then
        if o0 = 1 then { r with mnemonic := "ldar", type := .LDAR }
        else { r with mnemonic := "ldlar", type := .LDAR }
      else
        if o0 = 1 then { r with mnemonic := "stlr", type := .STLR }
        else { r with mnemonic := "stllr", type := .STLR }
  if size = 0 then
    (true, { r with mnemonic := r.mnemonic ++ "b", rd_type := .W })
  else if size = 1 then
    (true, { r with mnemonic := r.mnemonic ++ "h", rd_type := .W })
  else
    (true, r)

/-- The `a`/`l`/`al` acquire-release mnemonic suffix used by the atomic
and CAS decoders. -/
def acq_rel_suffix (a rel : Bool) : String :=
  if a && rel then "al" else if a then "a" else if rel then "l" else ""

/-- The `b`/`h` size mnemonic suffix used by the atomic and CAS decoders. -/
def size_suffix (size : Nat) : String :=
  if size = 0 then "b" else if size = 1 then "h" else ""

/-- `decode_atomic_memory_ops`: the LDADD/…/LDUMIN and SWP family,
encoding `size|111|V|00|A|R|1|Rs|o3|opc|00|Rn|Rt`; rejects `V≠0`. -/
def decode_atomic_memory_ops : decode_func_t := fun inst _addr r =>
  let size := BITS inst 30 31
  let V := BIT inst 26
  let A := BIT inst 23
  let R := BIT inst 22
  let rs := BITS inst 16 20
  let o3 := BIT inst 15
  let opc := BITS inst 12 14
  let rn := BITS inst 5 9
  let rt := BITS inst 0 4
  if V ≠ 0 then (false, r)
  else
    let wide : reg_type_t := if size = 3 then .X else .W
    let r := { r with rd := rt, rn := rn, rm := rs,
                      rn_type := if rn = 31 then reg_type_t.SP else reg_type_t.X,
                      has_imm := false, addr_mode := .IMM_UNSIGNED,
                      is_acquire := A == 1, is_release := R == 1,
                      is_64bit := size == 3,
                      rd_type := wide, rm_type := wide }
    let suffix := acq_rel_suffix (A == 1) (R == 1)
    let r := if size = 0 ∨ size = 1 then { r with rd_type := .W, rm_type := .W } else r
    let atomic_ops : List (String × inst_type_t) :=
      [("ldadd", .LDADD), ("ldclr", .LDCLR), ("ldeor", .LDEOR), ("ldset", .LDSET),
       ("ldsmax", .LDSMAX), ("ldsmin", .LDSMIN), ("ldumax", .LDUMAX), ("ldumin", .LDUMIN)]
    if o3 = 0 then
      let entry := atomic_ops.getD opc ("", .UNKNOWN)
      (true, { r with mnemonic := entry.1 ++ suffix ++ size_suffix size,
                      type := entry.2 })
    else
      (true, { r with mnemonic := "swp" ++ suffix ++ size_suffix size,
                      type := .SWP })

/-- `decode_cas`: compare-and-swap,
encoding `size|0010001|o1|1|Rs|o0|11111|Rn|Rt`; always succeeds, with
`is_acquire = o0`, `is_release = o1` and the `cas`+`a/l/al`+`b/h`
mnemonic composition. -/
def decode_cas : decode_func_t := fun inst _addr r =>
  let size := BITS inst 30 31
  let o1 := BIT inst 22
  let rs := BITS inst 16 20
  let o0 := BIT inst 15
  let rn := BITS inst 5 9
  let rt := BITS inst 0 4
  let wide : reg_type_t := if size = 3 then .X else .W
  let r := { r with rd := rt, rn := rn, rm := rs,
                    rn_type := if rn = 31 then reg_type_t.SP else reg_type_t.X,
                    has_imm := false, addr_mode := .IMM_UNSIGNED,
                    is_acquire := o0 == 1, is_release := o1 == 1,
                    type := .CAS,
                    is_64bit := size == 3,
                    rd_type := wide, rm_type := wide }
  let suffix := acq_rel_suffix (o0 == 1) (o1 == 1)
  let r := if size = 0 ∨ size = 1 then { r with rd_type := .W, rm_type := .W } else r
  (true, { r with mnemonic := "cas" ++ suffix ++ size_suffix size })

/-- `load_store_decode_table`: note that the broad exclusive row (whose
decoder never rejects) precedes the CAS row. -/
def load_store_decode_table : List decode_entry_t :=
  [ ⟨0x3F000000, 0x08000000, decode_load_store_exclusive⟩,
    ⟨0x3FA07C00, 0x08A07C00, decode_cas⟩,
    ⟨0x3B200C00, 0x38200000, decode_atomic_memory_ops⟩,
    ⟨0x3A000000, 0x28000000, decode_ls_pair⟩,
    ⟨0x3B000000, 0x18000000, decode_load_literal⟩,
    ⟨0x3B000000, 0x39000000, decode_ls_unsigned_imm⟩,
    ⟨0x3B200C00, 0x38200800, decode_ls_reg_offset⟩,
    ⟨0x3B200000, 0x38000000, decode_ls_unscaled_imm⟩ ]

/-- `decode_load_store`. -/
def decode_load_store : decode_func_t := fun inst addr r =>
  decode_with_table load_store_decode_table inst addr r

/-! ## FP / scalar-SIMD decoders (`decode_fp_simd` and its table) -/

/-- `get_fp_reg_type`: operand width from the `ftype` field
(`0→S, 1→D, 3→H`, default `S`). -/
def get_fp_reg_type (ftype : Nat) : reg_type_t :=
  if ftype = 0 then .S else if ftype = 1 then .D else if ftype = 3 then .H else .S

/-- `decode_fp_data_proc_1src`: FMOV/FABS/FNEG/FSQRT/FCVT/FRINT…,
encoding `M|0|S|11110|ftype|1|opcode|10000|Rn|Rd`. -/
def decode_fp_data_proc_1src : decode_func_t := fun inst _addr r =>
  let M := BIT inst 31
  let S := BIT inst 29
  let ftype := BITS inst 22 23
  let opcode := BITS inst 15 20
  let rn := BITS inst 5 9
  let rd := BITS inst 0 4
  if M ≠ 0 ∨ S ≠ 0 then (false, r)
  else
    let r := { r with rd := rd, rn := rn, has_imm := false,
                      rd_type := get_fp_reg_type ftype,
                      rn_type := get_fp_reg_type ftype }
    let fp_1src_ops : List (Nat × String × inst_type_t) :=
      [ (0x00, "fmov",   .FMOV), (0x01, "fabs",   .FABS),
        (0x02, "fneg",   .FNEG), (0x03, "fsqrt",  .FSQRT),
        (0x04, "fcvt",   .FCVT), (0x05, "fcvt",   .FCVT),
        (0x07, "fcvt",   .FCVT), (0x08, "frintn", .FRINT),
        (0x09, "frintp", .FRINT), (0x0A, "frintm", .FRINT),
        (0x0B, "frintz", .FRINT), (0x0C, "frinta", .FRINT),
        (0x0E, "frintx", .FRINT), (0x0F, "frinti", .FRINT) ]
    match fp_1src_ops.find? (fun e => e.1 = opcode) with
    | none => (false, r)
    | some e =>
      let r := { r with mnemonic := e.2.1, type := e.2.2 }
      if 0x04 ≤ opcode ∧ opcode ≤ 0x07 then
        let opc := opcode &&& 0x03
        let r := if opc = 0 then { r with rd_type := .S }
                 else if opc = 1 then { r with rd_type := .D }
                 else if opc = 3 then { r with rd_type := .H }
                 else r
        (true, r)
      else
        (true, r)

/-- `decode_fp_data_proc_2src`: FMUL/FDIV/FADD/FSUB/FMAX/FMIN/…,
encoding `M|0|S|11110|ftype|1|Rm|opcode|10|Rn|Rd`. -/
def decode_fp_data_proc_2src : decode_func_t := fun inst _addr r =>
  let M := BIT inst 31
  let S := BIT inst 29
  let ftype := BITS inst 22 23
  let rm := BITS inst 16 20
  let opcode := BITS inst 12 15
  let rn := BITS inst 5 9
  let rd := BITS inst 0 4
  if M ≠ 0 ∨ S ≠ 0 then (false, r)
  else
    let r := { r with rd := rd, rn := rn, rm := rm, has_imm := false,
                      rd_type := get_fp_reg_type ftype,
                      rn_type := get_fp_reg_type ftype,
                      rm_type := get_fp_reg_type ftype }
    let fp_2src_ops : List (Nat × String × inst_type_t) :=
      [ (0x00, "fmul", .FMUL), (0x01, "fdiv", .FDIV),
        (0x02, "fadd", .FADD), (0x03, "fsub", .FSUB),
        (0x04, "fmax", .FMAX), (0x05, "fmin", .FMIN),
        (0x06, "fmaxnm", .FMAX), (0x07, "fminnm", .FMIN),
        (0x08, "fnmul", .FMUL) ]
    match fp_2src_ops.find? (fun e => e.1 = opcode) with
    | none => (false, r)
    | some e => (true, { r with mnemonic := e.2.1, type := e.2.2 })

/-- `decode_fp_data_proc_3src`: FMADD/FMSUB/FNMADD/FNMSUB,
encoding `M|0|S|11111|ftype|o1|Rm|o0|Ra|Rn|Rd`. -/
def decode_fp_data_proc_3src : decode_func_t := fun inst _addr r =>
  let M := BIT inst 31
  let S := BIT inst 29
  let ftype := BITS inst 22 23
  let o1 := BIT inst 21
  let rm := BITS inst 16 20
  let o0 := BIT inst 15
  let ra := BITS inst 10 14
  let rn := BITS inst 5 9
  let rd := BITS inst 0 4
  if M ≠ 0 ∨ S ≠ 0 then (false, r)
  else
    let r := { r with rd := rd, rn := rn, rm := rm, ra := ra, has_imm := false,
                      rd_type := get_fp_reg_type ftype,
                      rn_type := get_fp_reg_type ftype,
                      rm_type := get_fp_reg_type ftype }
    let op := (o1 <<< 1) ||| o0
    if op = 0 then (true, { r with mnemonic := "fmadd", type := .FMADD })
    else if op = 1 then (true, { r with mnemonic := "fmsub", type := .FMSUB })
    else if op = 2 then (true, { r with mnemonic := "fnmadd", type := .FNMADD })
    else if op = 3 then (true, { r with mnemonic := "fnmsub", type := .FNMSUB })
    else (false, r)

/-- `decode_fp_compare`: FCMP/FCMPE (register or `#0.0` forms),
encoding `M|0|S|11110|ftype|1|Rm|op|1000|Rn|opcode2`. -/
def decode_fp_compare : decode_func_t := fun inst _addr r =>
  let M := BIT inst 31
  let S := BIT inst 29
  let ftype := BITS inst 22 23
  let rm := BITS inst 16 20
  let op := BITS inst 14 15
  let rn := BITS inst 5 9
  let opcode2 := BITS inst 0 4
  if M ≠ 0 ∨ S ≠ 0 then (false, r)
  else if op ≠ 0 then (false, r)
  else
    let r := { r with rn := rn, rm := rm, has_imm := false,
                      rn_type := get_fp_reg_type ftype,
                      rm_type := get_fp_reg_type ftype,
                      type := .FCMP }
    if opcode2 = 0x00 then
      (true, { r with mnemonic := "fcmp", type := .FCMP })
    else if opcode2 = 0x08 then
      (true, { r with mnemonic := "fcmp", type := .FCMP, has_imm := true, imm := 0 })
    else if opcode2 = 0x10 then
      (true, { r with mnemonic := "fcmpe", type := .FCMPE })
    else if opcode2 = 0x18 then
      (true, { r with mnemonic := "fcmpe", type := .FCMPE, has_imm := true, imm := 0 })
    else
      (false, r)

/-- `decode_fp_cond_compare`: FCCMP/FCCMPE,
encoding `M|0|S|11110|ftype|1|Rm|cond|01|Rn|op|nzcv`. -/
def decode_fp_cond_compare : decode_func_t := fun inst _addr r =>
  let M := BIT inst 31
  let S := BIT inst 29
  let ftype := BITS inst 22 23
  let rm := BITS inst 16 20
  let cond := BITS inst 12 15
  let rn := BITS inst 5 9
  let op := BIT inst 4
  let nzcv := BITS inst 0 3
  if M ≠ 0 ∨ S ≠ 0 then (false, r)
  else
    (true, { r with rn := rn, rm := rm, cond := cond, imm := (nzcv : Int),
                    has_imm := true,
                    rn_type := get_fp_reg_type ftype,
                    rm_type := get_fp_reg_type ftype,
                    type := .FCCMP,
                    mnemonic := if op = 1 then "fccmpe" else "fccmp" })

/-- `decode_fp_cond_select`: FCSEL,
encoding `M|0|S|11110|ftype|1|Rm|cond|11|Rn|Rd`. -/
def decode_fp_cond_select : decode_func_t := fun inst _addr r =>
  let M := BIT inst 31
  let S := BIT inst 29
  let ftype := BITS inst 22 23
  let rm := BITS inst 16 20
  let cond := BITS inst 12 15
  let rn := BITS inst 5 9
  let rd := BITS inst 0 4
  if M ≠ 0 ∨ S ≠ 0 then (false, r)
  else
    (true, { r with rd := rd, rn := rn, rm := rm, cond := cond, has_imm := false,
                    rd_type := get_fp_reg_type ftype,
                    rn_type := get_fp_reg_type ftype,
                    rm_type := get_fp_reg_type ftype,
                    type := .FCSEL, mnemonic := "fcsel" })

/-- `decode_fp_int_conv`: FCVTZS/FCVTZU/SCVTF/UCVTF, FMOV GPR↔FP and the
rounding-mode conversions, encoding
`sf|0|S|11110|ftype|1|rmode|opcode|000000|Rn|Rd`; requires `S=0`. -/
def decode_fp_int_conv : decode_func_t := fun inst _addr r =>
  let sf := BIT inst 31
  let S := BIT inst 29
  let ftype := BITS inst 22 23
  let rmode := BITS inst 19 20
  let opcode := BITS inst 16 18
  let rn := BITS inst 5 9
  let rd := BITS inst 0 4
  if S ≠ 0 then (false, r)
  else
    let r := { r with rd := rd, rn := rn, has_imm := false }
    let fp_type := get_fp_reg_type ftype
    let gpr_type : reg_type_t := if sf = 1 then .X else .W
    let op := (rmode <<< 3) ||| opcode
    let to_gpr (m : String) (t : inst_type_t) : disasm_inst_t :=
      { r with mnemonic := m, rd_type := gpr_type, rn_type := fp_type, type := t }
    let to_fp (m : String) (t : inst_type_t) : disasm_inst_t :=
      { r with mnemonic := m, rd_type := fp_type, rn_type := gpr_type, type := t }
    let res : Option disasm_inst_t :=
      if op = 0x18 then some (to_gpr "fcvtzs" .FCVTZS)
      else if op = 0x19 then some (to_gpr "fcvtzu" .FCVTZU)
      else if op = 0x02 then some (to_fp "scvtf" .SCVTF)
      else if op = 0x03 then some (to_fp "ucvtf" .UCVTF)
      else if op = 0x06 then some (to_fp "fmov" .FMOV)
      else if op = 0x07 then some (to_gpr "fmov" .FMOV)
      else if op = 0x00 then some (to_gpr "fcvtns" .FCVTZS)
      else if op = 0x01 then some (to_gpr "fcvtnu" .FCVTZU)
      else if op = 0x08 then some (to_gpr "fcvtps" .FCVTZS)
      else if op = 0x09 then some (to_gpr "fcvtpu" .FCVTZU)
      else if op = 0x10 then some (to_gpr "fcvtms" .FCVTZS)
      else if op = 0x11 then some (to_gpr "fcvtmu" .FCVTZU)
      else if op = 0x04 then some (to_gpr "fcvtas" .FCVTZS)
      else if op = 0x05 then some (to_gpr "fcvtau" .FCVTZU)
      else none
    match res with
    | none => (false, r)
    | some r' => (true, { r' with is_64bit := sf == 1 })

/-- `decode_fp_imm`: FMOV (scalar immediate), storing the raw 8-bit
pattern; encoding `M|0|S|11110|ftype|1|imm8|100|imm5|Rd`; `imm5=0`
required. -/
def decode_fp_imm : decode_func_t := fun inst _addr r =>
  let M := BIT inst 31
  let S := BIT inst 29
  let ftype := BITS inst 22 23
  let imm8 := BITS inst 13 20
  let imm5 := BITS inst 5 9
  let rd := BITS inst 0 4
  if M ≠ 0 ∨ S ≠ 0 then (false, r)
  else if imm5 ≠ 0 then (false, r)
  else
    (true, { r with rd := rd, imm := (imm8 : Int), has_imm := true,
                    rd_type := get_fp_reg_type ftype,
                    type := .FMOV, mnemonic := "fmov" })

/-- `decode_simd_scalar_dup`: scalar DUP (element),
encoding `01|0|11110000|imm5|0|imm4|1|Rn|Rd`; `imm4=0` required. -/
def decode_simd_scalar_dup : decode_func_t := fun inst _addr r =>
  let imm5 := BITS inst 16 20
  let imm4 := BITS inst 11 14
  let rn := BITS inst 5 9
  let rd := BITS inst 0 4
  if imm4 ≠ 0 then (false, r)
  else
    let r := { r with rd := rd, rn := rn, has_imm := false }
    let res : Option disasm_inst_t :=
      if imm5 &&& 0x01 ≠ 0 then
        some { r with rd_type := .B, imm := ((imm5 >>> 1) &&& 0x0F : Nat) }
      else if imm5 &&& 0x02 ≠ 0 then
        some { r with rd_type := .H, imm := ((imm5 >>> 2) &&& 0x07 : Nat) }
      else if imm5 &&& 0x04 ≠ 0 then
        some { r with rd_type := .S, imm := ((imm5 >>> 3) &&& 0x03 : Nat) }
      else if imm5 &&& 0x08 ≠ 0 then
        some { r with rd_type := .D, imm := ((imm5 >>> 4) &&& 0x01 : Nat) }
      else none
    match res with
    | none => (false, r)
    | some r' =>
      (true, { r' with rn_type := .V, has_imm := true, type := .MOV,
                       mnemonic := "dup" })

/-- The scalar-3-same lookup table; it contains the key `0x3D` twice,
once for `"facge"` and once for `"fdiv"`, and the linear scan returns
the first match. -/
def simd_scalar_ops : List (Nat × String) :=
  [ (0x10, "add"), (0x30, "sub"), (0x1B, "fmulx"), (0x1C, "fcmeq"),
    (0x1F, "frecps"), (0x3C, "fcmge"), (0x3D, "facge"), (0x3F, "frsqrts"),
    (0x1A, "fadd"), (0x3A, "fsub"), (0x1E, "fmax"), (0x3E, "fmin"),
    (0x1D, "fmul"), (0x3D, "fdiv") ]

/-- `decode_simd_scalar_3same`: scalar three-same SIMD,
encoding `01|U|11110|size|1|Rm|opcode|1|Rn|Rd`; lookup key is
`(U<<5)|opcode`, and every match stores kind `ADD`. -/
def decode_simd_scalar_3same : decode_func_t := fun inst _addr r =>
  let U := BIT inst 29
  let size := BITS inst 22 23
  let rm := BITS inst 16 20
  let opcode := BITS inst 11 15
  let rn := BITS inst 5 9
  let rd := BITS inst 0 4
  let r := { r with rd := rd, rn := rn, rm := rm, has_imm := false,
                    rd_type := simd_types size, rn_type := simd_types size,
                    rm_type := simd_types size }
  let op := (U <<< 5) ||| opcode
  match simd_scalar_ops.find? (fun e => e.1 = op) with
  | none => (false, r)
  | some e => (true, { r with mnemonic := e.2, type := .ADD })

/-- `decode_simd_scalar_2reg_misc`: scalar two-register miscellaneous,
encoding `01|U|11110|size|10000|opcode|10|Rn|Rd`. -/
def decode_simd_scalar_2reg_misc : decode_func_t := fun inst _addr r =>
  let U := BIT inst 29
  let size := BITS inst 22 23
  let opcode := BITS inst 12 16
  let rn := BITS inst 5 9
  let rd := BITS inst 0 4
  let r := { r with rd := rd, rn := rn, has_imm := false,
                    rd_type := simd_types size, rn_type := simd_types size }
  let op := (U <<< 5) ||| opcode
  let scalar_2reg_ops : List (Nat × String) :=
    [ (0x03, "suqadd"), (0x07, "sqabs"), (0x08, "cmgt"), (0x09, "cmeq"),
      (0x0A, "cmlt"), (0x0B, "abs"), (0x0C, "fcmgt"), (0x0D, "fcmeq"),
      (0x0E, "fcmlt"), (0x1A, "fcvtns"), (0x1B, "fcvtms"), (0x1C, "fcvtas"),
      (0x1D, "scvtf"), (0x23, "usqadd"), (0x27, "sqneg"), (0x28, "cmge"),
      (0x29, "cmle"), (0x2B, "neg"), (0x2C, "fcmge"), (0x2D, "fcmle"),
      (0x3A, "fcvtpu"), (0x3B, "fcvtzu"), (0x3D, "ucvtf") ]
  match scalar_2reg_ops.find? (fun e => e.1 = op) with
  | none => (false, r)
  | some e => (true, { r with mnemonic := e.2, type := .MOV })

/-- `fp_simd_decode_table`. -/
def fp_simd_decode_table : List decode_entry_t :=
  [ ⟨0x5F203C00, 0x1E202000, decode_fp_compare⟩,
    ⟨0x5F200C00, 0x1E200400, decode_fp_cond_compare⟩,
    ⟨0x5F200C00, 0x1E200C00, decode_fp_cond_select⟩,
    ⟨0x5F200C00, 0x1E200800, decode_fp_data_proc_2src⟩,
    ⟨0x5F207C00, 0x1E204000, decode_fp_data_proc_1src⟩,
    ⟨0x5F201C00, 0x1E201000, decode_fp_imm⟩,
    ⟨0x5F20FC00, 0x1E200000, decode_fp_int_conv⟩,
    ⟨0x5F000000, 0x1F000000, decode_fp_data_proc_3src⟩,
    ⟨0xFFE0FC00, 0x5E000400, decode_simd_scalar_dup⟩,
    ⟨0xDF200400, 0x5E200400, decode_simd_scalar_3same⟩,
    ⟨0xDF3E0C00, 0x5E200800, decode_simd_scalar_2reg_misc⟩ ]

/-- `decode_fp_simd`. -/
def decode_fp_simd : decode_func_t := fun inst addr r =>
  decode_with_table fp_simd_decode_table inst addr r

/-! ## Top-level dispatch and entry point (`arm64_disasm.c`) -/

/-- `top_level_decode_table`. -/
def top_level_decode_table : List decode_entry_t :=
  [ ⟨0x1C000000, 0x10000000, decode_data_proc_imm⟩,
    ⟨0x1C000000, 0x14000000, decode_branch⟩,
    ⟨0x0A000000, 0x08000000, decode_load_store⟩,
    ⟨0x1C000000, 0x18000000, decode_load_store⟩,
    ⟨0x0E000000, 0x0A000000, decode_data_proc_reg⟩ ]

/-- `disassemble_arm64` (table-driven version): initialize the record,
run the top-level table, and on failure retry `decode_branch`,
`decode_data_proc_imm`, `decode_data_proc_reg` and `decode_load_store`
in that order (`decode_fp_simd` is not in the chain); finally report
success iff the record's type is no longer `UNKNOWN`. -/
def disassemble_arm64 (raw_inst address : Nat) : Bool × disasm_inst_t :=
  let r := init_disasm_inst raw_inst address
  match decode_with_table top_level_decode_table raw_inst address r with
  | (true, r) => (true, r)
  | (false, r) =>
    match decode_branch raw_inst address r with
    | (true, r) => (true, r)
    | (false, r) =>
      match decode_data_proc_imm raw_inst address r with
      | (true, r) => (true, r)
      | (false, r) =>
        match decode_data_proc_reg raw_inst address r with
        | (true, r) => (true, r)
        | (false, r) =>
          match decode_load_store raw_inst address r with
          | (true, r) => (true, r)
          | (false, r) => (decide (r.type ≠ .UNKNOWN), r)

/-- `get_branch_target`: for the eight PC-relative kinds, the target is
`address + imm` in 64-bit (wrap-around) arithmetic; every other kind
yields no target. -/
def get_branch_target (inst : disasm_inst_t) : Option Int :=
  match inst.type with
  | .B | .BL | .CBZ | .CBNZ | .TBZ | .TBNZ | .ADR | .ADRP =>
    some (((inst.address : Int) + inst.imm) % (2 ^ 64 : Int))
  | _ => none

/-- The architectural target of an ADRP word, written independently
from the decoder, following the Arm A64 reference semantics that the
spec's branch-target law compares against: ADRP forms its result from
the *page-aligned* address, `(address AND NOT 0xFFF) +
sign_extend(imm21, 21) * 4096` (in 64-bit wrap-around arithmetic).
This is deliberately not the decoder's `address + imm`. -/
def arch_adrp_target (address imm21 : Nat) : Int :=
  (((address / 4096 * 4096 : Nat) : Int) + SIGN_EXTEND imm21 21 * 4096)
    % (2 ^ 64 : Int)

/-! ## Generic lemmas about the decode engine and bit fields -/

/-- If no row of a table matches the word, the engine reports failure
and passes the record through unchanged. -/
theorem decode_with_table_of_no_match (t : List decode_entry_t)
    (inst addr : Nat) (r : disasm_inst_t)
    (h : ∀ e ∈ t, inst &&& e.mask ≠ e.value) :
    decode_with_table t inst addr r = (false, r) := by
  induction t with
  | nil => rfl
  | cons e rest ih =>
    simp only [decode_with_table]
    rw [if_neg (h e (List.mem_cons_self e rest))]
    exact ih (fun e' he' => h e' (List.mem_cons_of_mem e he'))

/-- Masking with a sub-mask of an already determined mask is determined:
from `w &&& m1 = v1` and `m1 &&& m2 = m2` conclude `w &&& m2 = v1 &&& m2`. -/
theorem and_mask_sub (w m1 m2 v1 : Nat) (h : w &&& m1 = v1)
    (hsub : m1 &&& m2 = m2) : w &&& m2 = v1 &&& m2 := by
  rw [← h, Nat.and_assoc, hsub]

/-- A single extracted bit is at most 1. -/
theorem BIT_le_one (w p : Nat) : BIT w p ≤ 1 := Nat.and_le_right

/-- An extracted field is bounded by its mask. -/
theorem BITS_le (w lo hi : Nat) : BITS w lo hi ≤ (1 <<< (hi - lo + 1)) - 1 :=
  Nat.and_le_right

/-! ## Claim theorems -/

/-- C1: `decode_fp_simd` recognizes the word 0x1E202000 at address
0x3000 as FCMP with `rn = 0`, `rm = 0`, `rn_class = S`, `rm_class = S`,
exactly as the claim describes — but `disassemble_arm64` never invokes
`decode_fp_simd`: its fallback chain retries only the branch,
data-processing-immediate, data-processing-register and load/store
decoders, so decoding 0x1E202000 at 0x3000 fails with kind `UNKNOWN`
and mnemonic `"unknown"`, contradicting the claim (and the repository's
own test expectation `fcmp s0, s0` for this word). -/
theorem C1_fp_simd_never_retried :
    (decode_fp_simd 0x1E202000 0x3000 (init_disasm_inst 0x1E202000 0x3000)).1 = true
    ∧ (decode_fp_simd 0x1E202000 0x3000 (init_disasm_inst 0x1E202000 0x3000)).2.type = .FCMP
    ∧ (decode_fp_simd 0x1E202000 0x3000 (init_disasm_inst 0x1E202000 0x3000)).2.rn = 0
    ∧ (decode_fp_simd 0x1E202000 0x3000 (init_disasm_inst 0x1E202000 0x3000)).2.rm = 0
    ∧ (decode_fp_simd 0x1E202000 0x3000 (init_disasm_inst 0x1E202000 0x3000)).2.rn_type = .S
    ∧ (decode_fp_simd 0x1E202000 0x3000 (init_disasm_inst 0x1E202000 0x3000)).2.rm_type = .S
    ∧ (disassemble_arm64 0x1E202000 0x3000).1 = false
    ∧ (disassemble_arm64 0x1E202000 0x3000).2.type = .UNKNOWN
    ∧ (disassemble_arm64 0x1E202000 0x3000).2.mnemonic = "unknown" := by
  decide

/-- C2 counterexample: at the word 0xD8000000 (a load-literal shape with
the reserved `opc = 3`), every decode-table row that matches has its
decoder reject — the top-level table and all four fallback category
decoders report failure — yet `disassemble_arm64` returns `true` with
the concrete kind `LDR` and mnemonic `"ldr"`, because
`decode_load_literal` wrote those fields into the record before
rejecting.  This refutes the claim that such words are reported as Not
recognized with kind `UNKNOWN`. -/
theorem C2_counterexample :
    (decode_with_table top_level_decode_table 0xD8000000 0
        (init_disasm_inst 0xD8000000 0)).1 = false
    ∧ (decode_branch 0xD8000000 0
        ((decode_with_table top_level_decode_table 0xD8000000 0
          (init_disasm_inst 0xD8000000 0)).2)).1 = false
    ∧ (decode_data_proc_imm 0xD8000000 0 (init_disasm_inst 0xD8000000 0)).1 = false
    ∧ (decode_data_proc_reg 0xD8000000 0 (init_disasm_inst 0xD8000000 0)).1 = false
    ∧ (decode_load_store 0xD8000000 0 (init_disasm_inst 0xD8000000 0)).1 = false
    ∧ (disassemble_arm64 0xD8000000 0).1 = true
    ∧ (disassemble_arm64 0xD8000000 0).2.type = .LDR
    ∧ (disassemble_arm64 0xD8000000 0).2.mnemonic = "ldr" := by
  decide

/-- C2 (amended): when no decode-table row matches the word at all —
neither in the top-level table nor in any of the four category tables
retried by the fallback chain — `disassemble_arm64` returns `false` and
leaves the freshly initialized record untouched: kind `UNKNOWN`,
mnemonic `"unknown"`, no concrete kind reported.  (The original claim's
other case, "every matching row's decoder rejected", does not imply
this: a rejecting decoder may already have written a concrete kind, as
the counterexample 0xD8000000 shows.) -/
theorem C2_no_row_match_not_recognized (w a : Nat)
    (h1 : ∀ e ∈ top_level_decode_table, w &&& e.mask ≠ e.value)
    (h2 : ∀ e ∈ branch_decode_table, w &&& e.mask ≠ e.value)
    (h3 : ∀ e ∈ data_proc_imm_decode_table, w &&& e.mask ≠ e.value)
    (h4 : ∀ e ∈ data_proc_reg_decode_table, w &&& e.mask ≠ e.value)
    (h5 : ∀ e ∈ load_store_decode_table, w &&& e.mask ≠ e.value) :
    disassemble_arm64 w a = (false, init_disasm_inst w a)
    ∧ (disassemble_arm64 w a).2.type = .UNKNOWN
    ∧ (disassemble_arm64 w a).2.mnemonic = "unknown" := by
  have hmain : disassemble_arm64 w a = (false, init_disasm_inst w a) := by
    unfold disassemble_arm64 decode_branch decode_data_proc_imm
      decode_data_proc_reg decode_load_store
    simp only [decode_with_table_of_no_match _ _ _ _ h1,
               decode_with_table_of_no_match _ _ _ _ h2,
               decode_with_table_of_no_match _ _ _ _ h3,
               decode_with_table_of_no_match _ _ _ _ h4,
               decode_with_table_of_no_match _ _ _ _ h5]
    rfl
  exact ⟨hmain, by rw [hmain]; rfl, by rw [hmain]; rfl⟩

/-- Witness for C2 (amended): the all-zero word matches no row of any
table, and `disassemble_arm64 0 0` indeed fails with an untouched
record. -/
theorem C2_no_row_match_not_recognized_witness :
    (∀ e ∈ top_level_decode_table, 0 &&& e.mask ≠ e.value)
    ∧ (disassemble_arm64 0 0 = (false, init_disasm_inst 0 0)
       ∧ (disassemble_arm64 0 0).2.type = .UNKNOWN
       ∧ (disassemble_arm64 0 0).2.mnemonic = "unknown") :=
  ⟨by decide,
   C2_no_row_match_not_recognized 0 0 (by decide) (by decide) (by decide)
     (by decide) (by decide)⟩

/-- C3: decoding 0xC8A07C20 at 0x4000 does not produce CAS.  The CAS
row's own decoder `decode_cas` would produce exactly what the claim
says (kind `CAS`, `rd = 0`, `rm = 0`, `rn = 1`, `rd_class = GpX`,
mnemonic `"cas"`, `is_acquire = o0 = 0`, `is_release = o1 = 0`), and the
word does match the CAS row's mask/value — but the broader load/store-
exclusive row precedes it in `load_store_decode_table` and its decoder
never rejects, so `disassemble_arm64` returns kind `STLR` with mnemonic
`"stllr"` instead, contradicting the claim (and the repository's own
test expectation `cas x0, x0, [x1]`). -/
theorem C3_cas_shadowed_by_exclusive :
    (decode_cas 0xC8A07C20 0x4000 (init_disasm_inst 0xC8A07C20 0x4000)).1 = true
    ∧ (decode_cas 0xC8A07C20 0x4000 (init_disasm_inst 0xC8A07C20 0x4000)).2.type = .CAS
    ∧ (decode_cas 0xC8A07C20 0x4000 (init_disasm_inst 0xC8A07C20 0x4000)).2.mnemonic = "cas"
    ∧ (decode_cas 0xC8A07C20 0x4000 (init_disasm_inst 0xC8A07C20 0x4000)).2.rd = 0
    ∧ (decode_cas 0xC8A07C20 0x4000 (init_disasm_inst 0xC8A07C20 0x4000)).2.rm = 0
    ∧ (decode_cas 0xC8A07C20 0x4000 (init_disasm_inst 0xC8A07C20 0x4000)).2.rn = 1
    ∧ (decode_cas 0xC8A07C20 0x4000 (init_disasm_inst 0xC8A07C20 0x4000)).2.rd_type = .X
    ∧ (decode_cas 0xC8A07C20 0x4000 (init_disasm_inst 0xC8A07C20 0x4000)).2.is_acquire = false
    ∧ (decode_cas 0xC8A07C20 0x4000 (init_disasm_inst 0xC8A07C20 0x4000)).2.is_release = false
    ∧ 0xC8A07C20 &&& 0x3FA07C00 = 0x08A07C00
    ∧ 0xC8A07C20 &&& 0x3F000000 = 0x08000000
    ∧ (disassemble_arm64 0xC8A07C20 0x4000).1 = true
    ∧ (disassemble_arm64 0xC8A07C20 0x4000).2.type = .STLR
    ∧ (disassemble_arm64 0xC8A07C20 0x4000).2.mnemonic = "stllr" := by
  decide

/-- C4 counterexample: the word 0x1100041F (`add wsp, w0, #1`, a 32-bit
ADD-immediate with `sf = 0`, `S = 0`, `Rd = 31`) decodes to the
GPR-destination kind `ADD` with `rd_class = Sp` and `is_64bit = false`;
since `Sp` is in the claim's 64-bit class set, the claimed equivalence
"`is_64bit` iff `rd_class ∈ {GpX, Sp, Xzr}`" fails on this record, and
it is exactly the combination the claim asserts cannot occur. -/
theorem C4_counterexample :
    (disassemble_arm64 0x1100041F 0).1 = true
    ∧ (disassemble_arm64 0x1100041F 0).2.type = .ADD
    ∧ (disassemble_arm64 0x1100041F 0).2.rd_type = .SP
    ∧ (disassemble_arm64 0x1100041F 0).2.is_64bit = false := by
  decide

set_option maxHeartbeats 16000000 in
/-- C4 (amended): for every word the ADD/SUB-immediate decoder accepts,
`is_64bit` is true iff `rd_class = GpX`, or `rd_class = Sp` together
with `sf = 1` (bit 31 of the word): the stack-pointer class alone does
not imply a 64-bit operation, because the 32-bit `sf = 0, S = 0,
Rd = 31` forms produce `rd_class = Sp` with `is_64bit = false`. -/
theorem C4_width_invariant_add_sub_imm (w a : Nat) (r : disasm_inst_t)
    (h : (decode_add_sub_imm w a r).1 = true) :
    ((decode_add_sub_imm w a r).2.is_64bit = true ↔
      ((decode_add_sub_imm w a r).2.rd_type = reg_type_t.X ∨
       ((decode_add_sub_imm w a r).2.rd_type = reg_type_t.SP ∧ BIT w 31 = 1))) := by
  by_cases hbig : BITS w 22 23 > 1
  · exfalso
    unfold decode_add_sub_imm at h
    rw [if_pos hbig] at h
    exact Bool.false_ne_true h
  · have hsh : BITS w 22 23 = 0 ∨ BITS w 22 23 = 1 := by omega
    have h31 := Nat.le_one_iff_eq_zero_or_eq_one.mp (BIT_le_one w 31)
    have h29 := Nat.le_one_iff_eq_zero_or_eq_one.mp (BIT_le_one w 29)
    have h30 := Nat.le_one_iff_eq_zero_or_eq_one.mp (BIT_le_one w 30)
    clear h
    rcases h31 with h31 | h31 <;> rcases h29 with h29 | h29 <;>
    rcases h30 with h30 | h30 <;> rcases hsh with hsh | hsh <;>
    by_cases hrd : BITS w 0 4 = 31 <;> by_cases hrn : BITS w 5 9 = 31 <;>
    by_cases him : BITS w 10 21 = 0 <;>
    simp [decode_add_sub_imm, h31, h29, h30, hsh, hrd, hrn, him]

/-- Witness for C4 (amended): instantiated at `add x0, x1, #1`
(0x91000420), which the decoder accepts. -/
theorem C4_width_invariant_add_sub_imm_witness :
    (decode_add_sub_imm 0x91000420 0 (init_disasm_inst 0x91000420 0)).1 = true
    ∧ ((decode_add_sub_imm 0x91000420 0 (init_disasm_inst 0x91000420 0)).2.is_64bit = true ↔
        ((decode_add_sub_imm 0x91000420 0 (init_disasm_inst 0x91000420 0)).2.rd_type = reg_type_t.X ∨
         ((decode_add_sub_imm 0x91000420 0 (init_disasm_inst 0x91000420 0)).2.rd_type = reg_type_t.SP
          ∧ BIT 0x91000420 31 = 1))) :=
  ⟨by decide,
   C4_width_invariant_add_sub_imm 0x91000420 0 (init_disasm_inst 0x91000420 0) (by decide)⟩

/-- C5: for every conditional-select word with `S = 0`, `op = 0` and
`op2 = 1` (the CSINC shape), the decoder always succeeds; when
`Rm = Rn = 31` it emits kind CSET and stores `cond XOR 1`; when
`Rm = Rn` (not both 31) with `cond ∉ {14, 15}` it emits CINC with the
same XOR-1 rewrite.  Concretely, decoding 0x9A9F07E0 at 0x2000 gives
kind CSET, `rd = 0`, `rd_class = GpX`, `cond = 1`. -/
theorem C5_csinc_cset_cinc (w a : Nat) (r : disasm_inst_t)
    (hS : BIT w 29 = 0) (hop : BIT w 30 = 0) (hop2 : BITS w 10 11 = 1) :
    ((decode_cond_select w a r).1 = true)
    ∧ (BITS w 16 20 = 31 ∧ BITS w 5 9 = 31 →
        (decode_cond_select w a r).2.type = .CSET
        ∧ (decode_cond_select w a r).2.cond = BITS w 12 15 ^^^ 1)
    ∧ (BITS w 16 20 = BITS w 5 9 ∧ BITS w 16 20 ≠ 31
       ∧ BITS w 12 15 ≠ 14 ∧ BITS w 12 15 ≠ 15 →
        (decode_cond_select w a r).2.type = .CINC
        ∧ (decode_cond_select w a r).2.cond = BITS w 12 15 ^^^ 1)
    ∧ (disassemble_arm64 0x9A9F07E0 0x2000).1 = true
    ∧ (disassemble_arm64 0x9A9F07E0 0x2000).2.type = .CSET
    ∧ (disassemble_arm64 0x9A9F07E0 0x2000).2.rd = 0
    ∧ (disassemble_arm64 0x9A9F07E0 0x2000).2.rd_type = .X
    ∧ (disassemble_arm64 0x9A9F07E0 0x2000).2.cond = 1 := by
  refine ⟨?_, ?_, ?_, by decide, by decide, by decide, by decide, by decide⟩
  · simp [decode_cond_select, hS, hop, hop2]
    split
    · rfl
    · split <;> rfl
  · rintro ⟨hrm, hrn⟩
    constructor <;> simp [decode_cond_select, hS, hop, hop2, hrm, hrn]
  · rintro ⟨heq, hne, h14, h15⟩
    have hrn31 : BITS w 5 9 ≠ 31 := heq ▸ hne
    constructor <;>
      simp [decode_cond_select, hS, hop, hop2, heq, hrn31, h14, h15]

/-- Witness for C5: instantiated at the CSET example word 0x9A9F07E0
(a CSINC shape with `Rm = Rn = 31`). -/
theorem C5_csinc_cset_cinc_witness :
    (BIT 0x9A9F07E0 29 = 0 ∧ BIT 0x9A9F07E0 30 = 0 ∧ BITS 0x9A9F07E0 10 11 = 1)
    ∧ (BITS 0x9A9F07E0 16 20 = 31 ∧ BITS 0x9A9F07E0 5 9 = 31 →
        (decode_cond_select 0x9A9F07E0 0x2000
          (init_disasm_inst 0x9A9F07E0 0x2000)).2.type = .CSET
        ∧ (decode_cond_select 0x9A9F07E0 0x2000
            (init_disasm_inst 0x9A9F07E0 0x2000)).2.cond = BITS 0x9A9F07E0 12 15 ^^^ 1) :=
  ⟨⟨by decide, by decide, by decide⟩,
   (C5_csinc_cset_cinc 0x9A9F07E0 0x2000 (init_disasm_inst 0x9A9F07E0 0x2000)
      (by decide) (by decide) (by decide)).2.1⟩

/-- C6 counterexample: the ADRP word 0x90000000 (`adrp x0, 0`) at the
non-page-aligned address 0x1004 decodes to kind ADRP with `imm = 0`,
and `get_branch_target` yields `address + imm = 0x1004`; the
architectural ADRP target is computed from the page-aligned address and
equals 0x1000, so `address + imm` does *not* equal the architectural
target — the claim's "this equals the architectural target" fails for
ADRP. -/
theorem C6_counterexample :
    (disassemble_arm64 0x90000000 0x1004).1 = true
    ∧ (disassemble_arm64 0x90000000 0x1004).2.type = .ADRP
    ∧ (disassemble_arm64 0x90000000 0x1004).2.imm = 0
    ∧ get_branch_target (disassemble_arm64 0x90000000 0x1004).2 = some 0x1004
    ∧ arch_adrp_target 0x1004
        ((BITS 0x90000000 5 23 <<< 2) ||| BITS 0x90000000 29 30) = 0x1000
    ∧ get_branch_target (disassemble_arm64 0x90000000 0x1004).2
        ≠ some (arch_adrp_target 0x1004
            ((BITS 0x90000000 5 23 <<< 2) ||| BITS 0x90000000 29 30)) := by
  decide

set_option maxHeartbeats 8000000 in
/-- C6 (amended): `get_branch_target` returns a target exactly for the
kinds B, BL, CBZ, CBNZ, TBZ, TBNZ, ADR, ADRP, and that target is always
`address + imm` (64-bit wrap-around).  For every word of the B/BL,
B.cond, CBZ/CBNZ, TBZ/TBNZ and ADR encodings, decoding succeeds with
the claimed kind and sign-extended `imm`, and `address + imm` equals
the architectural target computed independently from the raw fields.
For ADRP words, `imm = sign_extend(imm21, 21) << 12` and the returned
target is `address + imm`, which equals the architectural (page-
aligned) ADRP target only when the address is page-aligned — not in
general, as the counterexample at 0x1004 shows.  Concretely,
0x14000010 at 0x1000 gives `imm = 0x40` and target 0x1040. -/
theorem C6_branch_target_per_encoding :
    (∀ inst : disasm_inst_t,
       ((inst.type = .B ∨ inst.type = .BL ∨ inst.type = .CBZ ∨ inst.type = .CBNZ
         ∨ inst.type = .TBZ ∨ inst.type = .TBNZ ∨ inst.type = .ADR ∨ inst.type = .ADRP) →
          get_branch_target inst = some (((inst.address : Int) + inst.imm) % (2 ^ 64 : Int)))
       ∧ (get_branch_target inst ≠ none →
           (inst.type = .B ∨ inst.type = .BL ∨ inst.type = .CBZ ∨ inst.type = .CBNZ
            ∨ inst.type = .TBZ ∨ inst.type = .TBNZ ∨ inst.type = .ADR ∨ inst.type = .ADRP)))
    ∧ (∀ w a : Nat, w &&& 0x7C000000 = 0x14000000 →
        (disassemble_arm64 w a).1 = true
        ∧ ((disassemble_arm64 w a).2.type = .B ∨ (disassemble_arm64 w a).2.type = .BL)
        ∧ (disassemble_arm64 w a).2.imm = SIGN_EXTEND (BITS w 0 25) 26 * 4
        ∧ get_branch_target (disassemble_arm64 w a).2
            = some (((a : Int) + SIGN_EXTEND (BITS w 0 25) 26 * 4) % (2 ^ 64 : Int)))
    ∧ (∀ w a : Nat, w &&& 0xFF000010 = 0x54000000 →
        (disassemble_arm64 w a).1 = true
        ∧ (disassemble_arm64 w a).2.type = .B
        ∧ (disassemble_arm64 w a).2.imm = SIGN_EXTEND (BITS w 5 23) 19 * 4
        ∧ get_branch_target (disassemble_arm64 w a).2
            = some (((a : Int) + SIGN_EXTEND (BITS w 5 23) 19 * 4) % (2 ^ 64 : Int)))
    ∧ (∀ w a : Nat, w &&& 0x7E000000 = 0x34000000 →
        (disassemble_arm64 w a).1 = true
        ∧ ((disassemble_arm64 w a).2.type = .CBZ ∨ (disassemble_arm64 w a).2.type = .CBNZ)
        ∧ (disassemble_arm64 w a).2.imm = SIGN_EXTEND (BITS w 5 23) 19 * 4
        ∧ get_branch_target (disassemble_arm64 w a).2
            = some (((a : Int) + SIGN_EXTEND (BITS w 5 23) 19 * 4) % (2 ^ 64 : Int)))
    ∧ (∀ w a : Nat, w &&& 0x7E000000 = 0x36000000 →
        (disassemble_arm64 w a).1 = true
        ∧ ((disassemble_arm64 w a).2.type = .TBZ ∨ (disassemble_arm64 w a).2.type = .TBNZ)
        ∧ (disassemble_arm64 w a).2.imm = SIGN_EXTEND (BITS w 5 18) 14 * 4
        ∧ get_branch_target (disassemble_arm64 w a).2
            = some (((a : Int) + SIGN_EXTEND (BITS w 5 18) 14 * 4) % (2 ^ 64 : Int)))
    ∧ (∀ w a : Nat, w &&& 0x1F000000 = 0x10000000 → BIT w 31 = 0 →
        (disassemble_arm64 w a).1 = true
        ∧ (disassemble_arm64 w a).2.type = .ADR
        ∧ (disassemble_arm64 w a).2.imm
            = SIGN_EXTEND ((BITS w 5 23 <<< 2) ||| BITS w 29 30) 21
        ∧ get_branch_target (disassemble_arm64 w a).2
            = some (((a : Int) + SIGN_EXTEND ((BITS w 5 23 <<< 2) ||| BITS w 29 30) 21)
                      % (2 ^ 64 : Int)))
    ∧ (∀ w a : Nat, w &&& 0x1F000000 = 0x10000000 → BIT w 31 = 1 →
        (disassemble_arm64 w a).1 = true
        ∧ (disassemble_arm64 w a).2.type = .ADRP
        ∧ (disassemble_arm64 w a).2.imm
            = SIGN_EXTEND ((BITS w 5 23 <<< 2) ||| BITS w 29 30) 21 * 4096
        ∧ get_branch_target (disassemble_arm64 w a).2
            = some (((a : Int)
                      + SIGN_EXTEND ((BITS w 5 23 <<< 2) ||| BITS w 29 30) 21 * 4096)
                      % (2 ^ 64 : Int))
        ∧ (a % 4096 = 0 →
            get_branch_target (disassemble_arm64 w a).2
              = some (arch_adrp_target a ((BITS w 5 23 <<< 2) ||| BITS w 29 30))))
    ∧ (disassemble_arm64 0x14000010 0x1000).2.imm = 0x40
    ∧ get_branch_target (disassemble_arm64 0x14000010 0x1000).2 = some 0x1040 := by
  refine ⟨?_, ?_, ?_, ?_, ?_, ?_, ?_, by decide, by decide⟩
  · intro inst
    cases h : inst.type <;> simp [get_branch_target, h]
  · intro w a hw
    have h1 : w &&& 0x1C000000 = 0x14000000 :=
      (and_mask_sub w 0x7C000000 0x1C000000 0x14000000 hw (by decide)).trans (by decide)
    rcases Nat.le_one_iff_eq_zero_or_eq_one.mp (BIT_le_one w 31) with h31 | h31 <;>
      simp [disassemble_arm64, top_level_decode_table, decode_with_table,
            decode_branch, branch_decode_table, decode_uncond_branch_imm,
            h1, hw, h31, get_branch_target, init_disasm_inst]
  · intro w a hw
    have h1 : w &&& 0x1C000000 = 0x14000000 :=
      (and_mask_sub w 0xFF000010 0x1C000000 0x54000000 hw (by decide)).trans (by decide)
    have h2 : w &&& 0x7C000000 = 0x54000000 :=
      (and_mask_sub w 0xFF000010 0x7C000000 0x54000000 hw (by decide)).trans (by decide)
    have h3 : w &&& 0x7E000000 = 0x54000000 :=
      (and_mask_sub w 0xFF000010 0x7E000000 0x54000000 hw (by decide)).trans (by decide)
    have hc : BITS w 0 3 ≤ 15 := BITS_le w 0 3
    have hc' : BITS w 0 3 < 16 := by omega
    simp [disassemble_arm64, top_level_decode_table, decode_with_table, decode_branch,
          branch_decode_table, decode_cond_branch_imm, h1, h2, h3, hw, hc',
          get_branch_target, init_disasm_inst]
  · intro w a hw
    have h1 : w &&& 0x1C000000 = 0x14000000 :=
      (and_mask_sub w 0x7E000000 0x1C000000 0x34000000 hw (by decide)).trans (by decide)
    have h2 : w &&& 0x7C000000 = 0x34000000 :=
      (and_mask_sub w 0x7E000000 0x7C000000 0x34000000 hw (by decide)).trans (by decide)
    rcases Nat.le_one_iff_eq_zero_or_eq_one.mp (BIT_le_one w 24) with h24 | h24 <;>
      simp [disassemble_arm64, top_level_decode_table, decode_with_table, decode_branch,
            branch_decode_table, decode_compare_branch, h1, h2, hw, h24,
            get_branch_target, init_disasm_inst]
  · intro w a hw
    have h1 : w &&& 0x1C000000 = 0x14000000 :=
      (and_mask_sub w 0x7E000000 0x1C000000 0x36000000 hw (by decide)).trans (by decide)
    have h2 : w &&& 0x7C000000 = 0x34000000 :=
      (and_mask_sub w 0x7E000000 0x7C000000 0x36000000 hw (by decide)).trans (by decide)
    rcases Nat.le_one_iff_eq_zero_or_eq_one.mp (BIT_le_one w 24) with h24 | h24 <;>
      simp [disassemble_arm64, top_level_decode_table, decode_with_table, decode_branch,
            branch_decode_table, decode_test_branch, h1, h2, hw, h24,
            get_branch_target, init_disasm_inst]
  · intro w a hw h31
    have h1 : w &&& 0x1C000000 = 0x10000000 :=
      (and_mask_sub w 0x1F000000 0x1C000000 0x10000000 hw (by decide)).trans (by decide)
    simp [disassemble_arm64, top_level_decode_table, decode_with_table,
          decode_data_proc_imm, data_proc_imm_decode_table, decode_pc_rel_addr,
          h1, hw, h31, get_branch_target, init_disasm_inst]
  · intro w a hw h31
    have h1 : w &&& 0x1C000000 = 0x10000000 :=
      (and_mask_sub w 0x1F000000 0x1C000000 0x10000000 hw (by decide)).trans (by decide)
    have hall : (disassemble_arm64 w a).1 = true
        ∧ (disassemble_arm64 w a).2.type = .ADRP
        ∧ (disassemble_arm64 w a).2.imm
            = SIGN_EXTEND ((BITS w 5 23 <<< 2) ||| BITS w 29 30) 21 * 4096
        ∧ get_branch_target (disassemble_arm64 w a).2
            = some (((a : Int)
                      + SIGN_EXTEND ((BITS w 5 23 <<< 2) ||| BITS w 29 30) 21 * 4096)
                      % (2 ^ 64 : Int)) := by
      simp [disassemble_arm64, top_level_decode_table, decode_with_table,
            decode_data_proc_imm, data_proc_imm_decode_table, decode_pc_rel_addr,
            h1, hw, h31, get_branch_target, init_disasm_inst]
    refine ⟨hall.1, hall.2.1, hall.2.2.1, hall.2.2.2, ?_⟩
    intro ha
    rw [hall.2.2.2]
    unfold arch_adrp_target
    rw [Nat.div_mul_cancel (Nat.dvd_of_mod_eq_zero ha)]

/-- Witness for C6 (amended): the ADRP clause instantiated at the word
0x90000000 and the page-aligned address 0x2000, where the returned
target does equal the architectural ADRP target. -/
theorem C6_branch_target_per_encoding_witness :
    (0x90000000 &&& 0x1F000000 = 0x10000000 ∧ BIT 0x90000000 31 = 1
     ∧ 0x2000 % 4096 = 0)
    ∧ ((disassemble_arm64 0x90000000 0x2000).1 = true
       ∧ (disassemble_arm64 0x90000000 0x2000).2.type = .ADRP
       ∧ get_branch_target (disassemble_arm64 0x90000000 0x2000).2
           = some (arch_adrp_target 0x2000
               ((BITS 0x90000000 5 23 <<< 2) ||| BITS 0x90000000 29 30))) :=
  ⟨⟨by decide, by decide, by decide⟩, by
    have h := C6_branch_target_per_encoding.2.2.2.2.2.2.1 0x90000000 0x2000
      (by decide) (by decide)
    exact ⟨h.1, h.2.1, h.2.2.2.2 (by decide)⟩⟩

set_option maxHeartbeats 16000000 in
/-- C7: the bitfield decoder accepts exactly when `N = sf` and
`opc ≠ 3`; on acceptance it stores `shift_amount = immr` and
`imm = (immr << 6) | imms`, and applies the aliases: SBFM (opc 0)
becomes ASR exactly when `immr ≠ 0 ∧ imms = (sf ? 63 : 31)`; opc 1
stays BFM; UBFM (opc 2) becomes LSR when `imms = (sf ? 63 : 31)` and
LSL when `immr = 0 ∧ imms < (sf ? 63 : 31)`, otherwise keeps `ubfm`. -/
theorem C7_bitfield (w a : Nat) (r : disasm_inst_t) :
    ((decode_bitfield w a r).1 = true ↔ (BIT w 22 = BIT w 31 ∧ BITS w 29 30 ≠ 3))
    ∧ (BIT w 22 = BIT w 31 ∧ BITS w 29 30 ≠ 3 →
        (decode_bitfield w a r).2.shift_amount = BITS w 16 21
        ∧ (decode_bitfield w a r).2.imm = ((BITS w 16 21 <<< 6) ||| BITS w 10 15 : Nat))
    ∧ (BIT w 22 = BIT w 31 → BITS w 29 30 = 0 →
        ((BITS w 16 21 ≠ 0 ∧ BITS w 10 15 = (if BIT w 31 = 1 then 63 else 31) →
          (decode_bitfield w a r).2.mnemonic = "asr" ∧ (decode_bitfield w a r).2.type = .ASR)
        ∧ (¬(BITS w 16 21 ≠ 0 ∧ BITS w 10 15 = (if BIT w 31 = 1 then 63 else 31)) →
          (decode_bitfield w a r).2.mnemonic = "sbfm")))
    ∧ (BIT w 22 = BIT w 31 → BITS w 29 30 = 1 →
        (decode_bitfield w a r).2.mnemonic = "bfm")
    ∧ (BIT w 22 = BIT w 31 → BITS w 29 30 = 2 →
        ((BITS w 10 15 = (if BIT w 31 = 1 then 63 else 31) →
           (decode_bitfield w a r).2.mnemonic = "lsr" ∧ (decode_bitfield w a r).2.type = .LSR)
        ∧ (BITS w 16 21 = 0 ∧ BITS w 10 15 < (if BIT w 31 = 1 then 63 else 31) →
           (decode_bitfield w a r).2.mnemonic = "lsl" ∧ (decode_bitfield w a r).2.type = .LSL)
        ∧ (BITS w 10 15 ≠ (if BIT w 31 = 1 then 63 else 31)
           ∧ ¬(BITS w 16 21 = 0 ∧ BITS w 10 15 < (if BIT w 31 = 1 then 63 else 31)) →
           (decode_bitfield w a r).2.mnemonic = "ubfm"))) := by
  have hopc4 : BITS w 29 30 ≤ 3 := BITS_le w 29 30
  have hopc : BITS w 29 30 = 0 ∨ BITS w 29 30 = 1 ∨ BITS w 29 30 = 2 ∨ BITS w 29 30 = 3 := by
    omega
  rcases Nat.le_one_iff_eq_zero_or_eq_one.mp (BIT_le_one w 31) with h31 | h31 <;>
  by_cases hN : BIT w 22 = BIT w 31 <;>
  rcases hopc with ho | ho | ho | ho <;>
  by_cases hr0 : BITS w 16 21 = 0 <;>
  by_cases htgt : BITS w 10 15 = (if BIT w 31 = 1 then 63 else 31) <;>
  by_cases hlt : BITS w 10 15 < (if BIT w 31 = 1 then 63 else 31) <;>
  simp_all [decode_bitfield] <;>
  (try rw [if_neg (show ¬ BITS w 10 15 < 31 from by omega)]) <;>
  (try rw [if_neg (show ¬ BITS w 10 15 < 63 from by omega)]) <;>
  simp_all

/-- Witness for C7: the ASR alias at `asr x0, x1, #2` (0x9342FC20,
SBFM with `immr = 2 ≠ 0` and `imms = 63`). -/
theorem C7_bitfield_witness :
    (BIT 0x9342FC20 22 = BIT 0x9342FC20 31 ∧ BITS 0x9342FC20 29 30 = 0
     ∧ BITS 0x9342FC20 16 21 ≠ 0
     ∧ BITS 0x9342FC20 10 15 = (if BIT 0x9342FC20 31 = 1 then 63 else 31))
    ∧ ((decode_bitfield 0x9342FC20 0 (init_disasm_inst 0x9342FC20 0)).2.mnemonic = "asr"
       ∧ (decode_bitfield 0x9342FC20 0 (init_disasm_inst 0x9342FC20 0)).2.type = .ASR) :=
  ⟨⟨by decide, by decide, by decide, by decide⟩,
   ((C7_bitfield 0x9342FC20 0 (init_disasm_inst 0x9342FC20 0)).2.2.1
       (by decide) (by decide)).1 ⟨by decide, by decide⟩⟩

set_option maxHeartbeats 8000000 in
/-- C8: the move-wide decoder rejects exactly when `sf = 0 ∧ hw ≥ 2` or
`opc = 1`; otherwise it succeeds with `shift_amount = hw*16`,
`imm = imm16`, `has_imm` set, `rd_class` chosen by `sf`, and kind MOVN
for `opc = 0`, MOVZ for `opc = 2`, MOVK for `opc = 3`. -/
theorem C8_move_wide_imm (w a : Nat) (r : disasm_inst_t) :
    ((decode_move_wide_imm w a r).1 = false ↔
       ((BIT w 31 = 0 ∧ BITS w 21 22 ≥ 2) ∨ BITS w 29 30 = 1))
    ∧ (¬((BIT w 31 = 0 ∧ BITS w 21 22 ≥ 2) ∨ BITS w 29 30 = 1) →
        (decode_move_wide_imm w a r).2.shift_amount = BITS w 21 22 * 16
        ∧ (decode_move_wide_imm w a r).2.imm = (BITS w 5 20 : Int)
        ∧ (decode_move_wide_imm w a r).2.has_imm = true
        ∧ (decode_move_wide_imm w a r).2.rd_type
            = (if BIT w 31 = 1 then reg_type_t.X else reg_type_t.W)
        ∧ (BITS w 29 30 = 0 → (decode_move_wide_imm w a r).2.type = .MOVN)
        ∧ (BITS w 29 30 = 2 → (decode_move_wide_imm w a r).2.type = .MOVZ)
        ∧ (BITS w 29 30 = 3 → (decode_move_wide_imm w a r).2.type = .MOVK)) := by
  have h4 : BITS w 29 30 ≤ 3 := BITS_le w 29 30
  have hopc : BITS w 29 30 = 0 ∨ BITS w 29 30 = 1 ∨ BITS w 29 30 = 2 ∨ BITS w 29 30 = 3 := by
    omega
  rcases Nat.le_one_iff_eq_zero_or_eq_one.mp (BIT_le_one w 31) with h31 | h31 <;>
  rcases hopc with ho | ho | ho | ho <;>
  by_cases hcond : BIT w 31 = 0 ∧ BITS w 21 22 ≥ 2 <;>
  simp_all [decode_move_wide_imm] <;>
  rw [if_neg (show ¬ 2 ≤ BITS w 21 22 from by omega)] <;>
  simp_all

/-- Witness for C8: instantiated at `movz x0, #1` (0xD2800020). -/
theorem C8_move_wide_imm_witness :
    ¬((BIT 0xD2800020 31 = 0 ∧ BITS 0xD2800020 21 22 ≥ 2) ∨ BITS 0xD2800020 29 30 = 1)
    ∧ ((decode_move_wide_imm 0xD2800020 0 (init_disasm_inst 0xD2800020 0)).2.shift_amount
         = BITS 0xD2800020 21 22 * 16
       ∧ (decode_move_wide_imm 0xD2800020 0 (init_disasm_inst 0xD2800020 0)).2.imm
           = (BITS 0xD2800020 5 20 : Int)
       ∧ (decode_move_wide_imm 0xD2800020 0 (init_disasm_inst 0xD2800020 0)).2.has_imm = true
       ∧ (decode_move_wide_imm 0xD2800020 0 (init_disasm_inst 0xD2800020 0)).2.rd_type
           = (if BIT 0xD2800020 31 = 1 then reg_type_t.X else reg_type_t.W)
       ∧ (BITS 0xD2800020 29 30 = 0 →
           (decode_move_wide_imm 0xD2800020 0 (init_disasm_inst 0xD2800020 0)).2.type = .MOVN)
       ∧ (BITS 0xD2800020 29 30 = 2 →
           (decode_move_wide_imm 0xD2800020 0 (init_disasm_inst 0xD2800020 0)).2.type = .MOVZ)
       ∧ (BITS 0xD2800020 29 30 = 3 →
           (decode_move_wide_imm 0xD2800020 0 (init_disasm_inst 0xD2800020 0)).2.type = .MOVK)) :=
  ⟨by decide,
   (C8_move_wide_imm 0xD2800020 0 (init_disasm_inst 0xD2800020 0)).2 (by decide)⟩

set_option maxRecDepth 4096 in
/-- C9: in the scalar-3-same decoder, every word whose combined key
`(U << 5) | opcode` equals 0x3D is decoded via the first matching table
entry, so the emitted mnemonic is `"facge"` and never `"fdiv"`, even
though `simd_scalar_ops` carries the key 0x3D twice. -/
theorem C9_scalar_3same_first_match (w a : Nat) (r : disasm_inst_t)
    (hU : BIT w 29 = 1) (hop : BITS w 11 15 = 0x1D) :
    (decode_simd_scalar_3same w a r).1 = true
    ∧ (decode_simd_scalar_3same w a r).2.mnemonic = "facge"
    ∧ (decode_simd_scalar_3same w a r).2.mnemonic ≠ "fdiv" := by
  have hkey : (BIT w 29 <<< 5) ||| BITS w 11 15 = 0x3D := by
    rw [hU, hop]
    decide
  simp [decode_simd_scalar_3same, hkey, simd_scalar_ops]

/-- Witness for C9: instantiated at the word 0x7EE0EC00
(`U = 1`, `opcode = 0x1D`, `size = 3`). -/
theorem C9_scalar_3same_first_match_witness :
    (BIT 0x7EE0EC00 29 = 1 ∧ BITS 0x7EE0EC00 11 15 = 0x1D)
    ∧ ((decode_simd_scalar_3same 0x7EE0EC00 0 (init_disasm_inst 0x7EE0EC00 0)).1 = true
       ∧ (decode_simd_scalar_3same 0x7EE0EC00 0
            (init_disasm_inst 0x7EE0EC00 0)).2.mnemonic = "facge"
       ∧ (decode_simd_scalar_3same 0x7EE0EC00 0
            (init_disasm_inst 0x7EE0EC00 0)).2.mnemonic ≠ "fdiv") :=
  ⟨⟨by decide, by decide⟩,
   C9_scalar_3same_first_match 0x7EE0EC00 0 (init_disasm_inst 0x7EE0EC00 0)
     (by decide) (by decide)⟩

/-- C10: every word of the B.cond shape (`0101010 0 imm19 0 cond`)
decodes through `disassemble_arm64` to kind `B` with the condition
rendered only into the mnemonic `"b.<cond>"`; the record's `cond` field
is never written by `decode_cond_branch_imm`, so it keeps its
zero-initialized value 0 regardless of the architectural condition in
bits [3:0]. -/
theorem C10_cond_branch_cond_field (w a : Nat)
    (hw : w &&& 0xFF000010 = 0x54000000) :
    (disassemble_arm64 w a).1 = true
    ∧ (disassemble_arm64 w a).2.type = .B
    ∧ (disassemble_arm64 w a).2.cond = 0
    ∧ (disassemble_arm64 w a).2.mnemonic = "b." ++ cond_names.getD (BITS w 0 3) "" := by
  have h1 : w &&& 0x1C000000 = 0x14000000 :=
    (and_mask_sub w 0xFF000010 0x1C000000 0x54000000 hw (by decide)).trans (by decide)
  have h2 : w &&& 0x7C000000 = 0x54000000 :=
    (and_mask_sub w 0xFF000010 0x7C000000 0x54000000 hw (by decide)).trans (by decide)
  have h3 : w &&& 0x7E000000 = 0x54000000 :=
    (and_mask_sub w 0xFF000010 0x7E000000 0x54000000 hw (by decide)).trans (by decide)
  have hc : BITS w 0 3 ≤ 15 := BITS_le w 0 3
  have hc' : BITS w 0 3 < 16 := by omega
  simp [disassemble_arm64, top_level_decode_table, decode_with_table, decode_branch,
        branch_decode_table, decode_cond_branch_imm, h1, h2, h3, hw, hc',
        init_disasm_inst]

/-- Witness for C10: instantiated at `b.ne` (0x54000041 at 0x1000),
whose decoded record has `cond = 0` even though the architectural
condition is `ne` (1). -/
theorem C10_cond_branch_cond_field_witness :
    (0x54000041 &&& 0xFF000010 = 0x54000000)
    ∧ ((disassemble_arm64 0x54000041 0x1000).1 = true
       ∧ (disassemble_arm64 0x54000041 0x1000).2.type = .B
       ∧ (disassemble_arm64 0x54000041 0x1000).2.cond = 0
       ∧ (disassemble_arm64 0x54000041 0x1000).2.mnemonic
           = "b." ++ cond_names.getD (BITS 0x54000041 0 3) "") :=
  ⟨by decide, C10_cond_branch_cond_field 0x54000041 0x1000 (by decide)⟩

end CDisasm
